import Mathlib

/-
A verification development for the request-lifecycle manager in
src/Dmf/Modules.Library/Dmf_RequestTarget.c.

The C code is shallowly embedded: WDF handles become numeric object
identities, the UNIQUE_REQUEST context attached to each WDFREQUEST becomes
a record, the two WDFCOLLECTIONs become lists of object identities kept in
insertion order, and the global 64-bit counter
g_ContinuousRequestTargetUniqueId becomes a natural number reduced mod 2^64
(InterlockedIncrement64 on a 64-bit cell wraps at 2^64).  External
collaborators (WDF calls that can fail, the I/O target, the buffer pool)
are modelled by environment records carrying the status each call returns.
-/

namespace RequestTarget

/-- ContinuousRequestTarget_RequestType: the four request kinds handled by
Dmf_RequestTarget.c. -/
inductive RequestType
  | read
  | write
  | ioctl
  | internalIoctl
deriving DecidableEq, Repr

/-- The NTSTATUS values that appear in Dmf_RequestTarget.c, plus a generic
failure used for external calls whose concrete failure code the module only
tests with NT_SUCCESS. -/
inductive NtStatus
  | success
  | unsuccessful
  | objectIdNotFound
  | invalidParameter
  | insufficientResources
deriving DecidableEq, Repr

/-- NT_SUCCESS: in this embedding only NtStatus.success is a success code. -/
def ntSuccess : NtStatus → Bool
  | .success => true
  | _ => false

/-! ## Completion-parameter buffer extraction
(RequestTarget_CompletionParamsInputBufferAndOutputBufferGet) -/

/-- A WDFMEMORY object as seen by WdfMemoryGetBuffer: a buffer pointer
identity and the size WdfMemoryGetBuffer reports. -/
structure WdfMemoryObject where
  ptrId : Nat
  size : Nat
deriving DecidableEq, Repr

/-- WDF_REQUEST_COMPLETION_PARAMS, restricted to the fields read by
RequestTarget_CompletionParamsInputBufferAndOutputBufferGet:
Parameters.Read.{Length,Buffer}, Parameters.Write.{Length,Buffer},
Parameters.Ioctl.{Input.Buffer,Output.Buffer,Output.Length}. -/
structure CompletionParams where
  readLength : Nat
  readBuffer : Option WdfMemoryObject
  writeLength : Nat
  writeBuffer : Option WdfMemoryObject
  ioctlInputBuffer : Option WdfMemoryObject
  ioctlOutputBuffer : Option WdfMemoryObject
  ioctlOutputLength : Nat
deriving DecidableEq, Repr

/-- The four out-parameters of
RequestTarget_CompletionParamsInputBufferAndOutputBufferGet. -/
structure BuffersOut where
  inputBuffer : Option Nat
  inputBufferSize : Nat
  outputBuffer : Option Nat
  outputBufferSize : Nat
deriving DecidableEq, Repr

/-- RequestTarget_CompletionParamsInputBufferAndOutputBufferGet.  All four
out-parameters start as NULL/0.  Read: output size is Parameters.Read.Length
and the output buffer is taken from Parameters.Read.Buffer when non-NULL.
Write: symmetric with Parameters.Write.  Ioctl/InternalIoctl: input buffer
and its full size come from WdfMemoryGetBuffer on Parameters.Ioctl.Input.Buffer;
the output size is first set to the output memory object's size and then
overwritten with Parameters.Ioctl.Output.Length. -/
def completionParamsInputBufferAndOutputBufferGet
    (params : CompletionParams) (requestType : RequestType) : BuffersOut :=
  match requestType with
  | .read =>
      { inputBuffer := none
        inputBufferSize := 0
        outputBuffer := params.readBuffer.map (·.ptrId)
        outputBufferSize := params.readLength }
  | .write =>
      { inputBuffer := params.writeBuffer.map (·.ptrId)
        inputBufferSize := params.writeLength
        outputBuffer := none
        outputBufferSize := 0 }
  | .ioctl | .internalIoctl =>
      let inputBuffer := params.ioctlInputBuffer.map (·.ptrId)
      let inputBufferSize :=
        match params.ioctlInputBuffer with
        | some m => m.size
        | none => 0
      let outputBuffer := params.ioctlOutputBuffer.map (·.ptrId)
      let outputBufferSize :=
        match params.ioctlOutputBuffer with
        | some _ =>
            -- the code sets *OutputBufferSize to the capacity reported by
            -- WdfMemoryGetBuffer and immediately overwrites it with
            -- Parameters.Ioctl.Output.Length, so the final value is the
            -- actual transferred length
            params.ioctlOutputLength
        | none => 0
      { inputBuffer := inputBuffer
        inputBufferSize := inputBufferSize
        outputBuffer := outputBuffer
        outputBufferSize := outputBufferSize }

/-! ## Module state -/

/-- The UNIQUE_REQUEST context type attached to every WDFREQUEST created by
this module. -/
structure UniqueRequest where
  uniqueRequestIdCancel : Nat
  uniqueRequestIdReuse : Nat
  requestInUse : Bool
deriving DecidableEq, Repr

/-- A live WDFREQUEST object: its handle identity, its UNIQUE_REQUEST
context, and the extra reference count added by WdfObjectReference calls. -/
structure RequestObject where
  id : Nat
  ctx : UniqueRequest
  refCount : Nat
deriving DecidableEq, Repr

/-- 2^64: InterlockedIncrement64 on the 64-bit counter wraps at this
modulus. -/
def UINT64MOD : Nat := 2 ^ 64

/-- The state of one RequestTarget module instance together with the
process-wide counter.  objects is the heap of live WDFREQUEST objects;
pendingAsynchronousRequests and pendingReuseRequests are the two
WDFCOLLECTIONs (lists of object identities in insertion order);
liveMemories tracks the WDFMEMORY wrappers created by the send paths as
(memory id, parent request id); poolOutstanding counts BufferPool contexts
taken with DMF_BufferPool_Get and not yet returned with DMF_BufferPool_Put;
issuedTokens is ghost history recording every value ever returned by
InterlockedIncrement64 on g_ContinuousRequestTargetUniqueId. -/
structure ModuleState where
  counter : Nat
  objects : List RequestObject
  pendingAsynchronousRequests : List Nat
  pendingReuseRequests : List Nat
  liveMemories : List (Nat × Nat)
  nextId : Nat
  poolOutstanding : Nat
  issuedTokens : List Nat
deriving DecidableEq, Repr

/-- The fresh module state: counter zero, no objects, empty collections. -/
def initialState : ModuleState :=
  { counter := 0
    objects := []
    pendingAsynchronousRequests := []
    pendingReuseRequests := []
    liveMemories := []
    nextId := 1
    poolOutstanding := 0
    issuedTokens := [] }

/-- InterlockedIncrement64 on g_ContinuousRequestTargetUniqueId: increments
the 64-bit counter (wrapping mod 2^64) and returns the incremented value.
The returned value is also recorded in the ghost issuedTokens history. -/
def interlockedIncrement64 (s : ModuleState) : Nat × ModuleState :=
  let v := (s.counter + 1) % UINT64MOD
  (v, { s with counter := v, issuedTokens := v :: s.issuedTokens })

/-- Look up a live WDFREQUEST object by handle identity. -/
def getObject (s : ModuleState) (id : Nat) : Option RequestObject :=
  s.objects.find? (fun o => o.id == id)

/-- Mutate the UNIQUE_REQUEST context of the object with the given
identity (UniqueRequestContextGet followed by a field write). -/
def setCtx (s : ModuleState) (id : Nat) (f : UniqueRequest → UniqueRequest) :
    ModuleState :=
  { s with objects :=
      s.objects.map (fun o => if o.id == id then { o with ctx := f o.ctx } else o) }

/-- WdfObjectReference / WdfObjectReferenceWithTag on a request. -/
def referenceObject (s : ModuleState) (id : Nat) : ModuleState :=
  { s with objects :=
      s.objects.map (fun o =>
        if o.id == id then { o with refCount := o.refCount + 1 } else o) }

/-- WdfObjectDereference / WdfObjectDereferenceWithTag on a request. -/
def dereferenceObject (s : ModuleState) (id : Nat) : ModuleState :=
  { s with objects :=
      s.objects.map (fun o =>
        if o.id == id then { o with refCount := o.refCount - 1 } else o) }

/-- WdfObjectDelete on a WDFREQUEST: the object disappears from the heap and
the WDFMEMORY wrappers parented to it are destroyed with it. -/
def deleteRequestObject (s : ModuleState) (id : Nat) : ModuleState :=
  { s with objects := s.objects.filter (fun o => o.id != id)
           liveMemories := s.liveMemories.filter (fun m => m.2 != id) }

/-- WdfMemoryCreatePreallocated with ParentObject = parent: a fresh
WDFMEMORY wrapper recorded with its parent request. -/
def createMemory (s : ModuleState) (parent : Nat) : ModuleState × Nat :=
  let m := s.nextId
  ({ s with nextId := s.nextId + 1, liveMemories := (m, parent) :: s.liveMemories }, m)

/-- WdfObjectDelete on a WDFMEMORY wrapper. -/
def deleteMemory (s : ModuleState) (m : Nat) : ModuleState :=
  { s with liveMemories := s.liveMemories.filter (fun x => x.1 != m) }

/-- DMF_BufferPool_Get: one completion context leaves the pool. -/
def bufferPoolGet (s : ModuleState) : ModuleState :=
  { s with poolOutstanding := s.poolOutstanding + 1 }

/-- DMF_BufferPool_Put: a completion context returns to the pool. -/
def bufferPoolPut (s : ModuleState) : ModuleState :=
  { s with poolOutstanding := s.poolOutstanding - 1 }

/-- WdfRequestCreate with a UNIQUE_REQUEST context: a fresh request object
whose context is zero-initialized. -/
def createRequestObject (s : ModuleState) : ModuleState × Nat :=
  let r := s.nextId
  ({ s with nextId := s.nextId + 1
            objects := s.objects ++
              [{ id := r
                 ctx := { uniqueRequestIdCancel := 0
                          uniqueRequestIdReuse := 0
                          requestInUse := false }
                 refCount := 0 }] }, r)

/-- RequestTarget_PendingCollectionListAdd: WdfCollectionAdd appends to the
named collection (shown here for the pending asynchronous collection). -/
def pendingListAdd (s : ModuleState) (id : Nat) : ModuleState :=
  { s with pendingAsynchronousRequests := s.pendingAsynchronousRequests ++ [id] }

/-- RequestTarget_PendingCollectionListAdd on the reuse collection. -/
def reuseListAdd (s : ModuleState) (id : Nat) : ModuleState :=
  { s with pendingReuseRequests := s.pendingReuseRequests ++ [id] }

/-- The loop body of RequestTarget_PendingCollectionListSearchAndRemove:
scan the collection in insertion order and remove the first entry equal to
the given request handle.  Returns the updated collection and whether the
request was found. -/
def listSearchAndRemove (target : Nat) : List Nat → List Nat × Bool
  | [] => ([], false)
  | id :: rest =>
      if id == target then (rest, true)
      else
        let r := listSearchAndRemove target rest
        (id :: r.1, r.2)

/-- RequestTarget_PendingCollectionListSearchAndRemove applied to the
pending asynchronous collection. -/
def pendingListRemove (s : ModuleState) (id : Nat) : ModuleState :=
  { s with pendingAsynchronousRequests :=
      (listSearchAndRemove id s.pendingAsynchronousRequests).1 }

/-- RequestTarget_PendingCollectionListSearchAndRemove applied to the reuse
collection. -/
def reuseListRemove (s : ModuleState) (id : Nat) : ModuleState :=
  { s with pendingReuseRequests :=
      (listSearchAndRemove id s.pendingReuseRequests).1 }

/-! ## The two searches -/

/-- Loop body of RequestTarget_PendingCollectionReuseListSearch: scan the
reuse collection in insertion order; WdfCollectionGetItem returning NULL
(an identity with no live object) ends the scan.  On the first entry whose
UniqueRequestIdReuse matches: if RequestInUse is set the search fails with
the state unchanged; otherwise RequestInUse is set and the entry is
returned. -/
def reuseListSearchGo (s : ModuleState) (tok : Nat) :
    List Nat → ModuleState × Option Nat
  | [] => (s, none)
  | id :: rest =>
      match getObject s id with
      | none => (s, none)
      | some o =>
          if o.ctx.uniqueRequestIdReuse == tok then
            if o.ctx.requestInUse then (s, none)
            else (setCtx s id (fun c => { c with requestInUse := true }), some id)
          else reuseListSearchGo s tok rest

/-- RequestTarget_PendingCollectionReuseListSearch. -/
def reuseListSearch (s : ModuleState) (tok : Nat) : ModuleState × Option Nat :=
  reuseListSearchGo s tok s.pendingReuseRequests

/-- Loop body of RequestTarget_PendingCollectionListSearchAndReference:
scan the pending asynchronous collection in insertion order; a NULL item
ends the scan; the first entry whose UniqueRequestIdCancel matches is
referenced (WdfObjectReferenceWithTag) and returned. -/
def cancelListSearchGo (s : ModuleState) (tok : Nat) :
    List Nat → ModuleState × Option Nat
  | [] => (s, none)
  | id :: rest =>
      match getObject s id with
      | none => (s, none)
      | some o =>
          if o.ctx.uniqueRequestIdCancel == tok then
            (referenceObject s id, some id)
          else cancelListSearchGo s tok rest

/-- RequestTarget_PendingCollectionListSearchAndReference. -/
def pendingListSearchAndReference (s : ModuleState) (tok : Nat) :
    ModuleState × Option Nat :=
  cancelListSearchGo s tok s.pendingAsynchronousRequests

/-! ## The send paths -/

/-- ContinuousRequestTarget_CompletionOptions. -/
inductive CompletionOptions
  | dfault
  | dispatch
  | passive
deriving DecidableEq, Repr

/-- The non-buffer parameters of RequestTarget_RequestSendReuse and
RequestTarget_RequestCreateAndSend.  wantCancel models
DmfRequestIdCancel != NULL. -/
structure SendParams where
  isSynchronousRequest : Bool
  requestLength : Nat
  responseLength : Nat
  requestType : RequestType
  completionOption : CompletionOptions
  wantCancel : Bool
deriving DecidableEq, Repr

/-- The status each external call made by the send paths returns, plus the
WdfRequestSend outcome.  requestStatusAfter is what WdfRequestGetStatus
reports when the send path reads it (synchronous completion or failed
send); requestInformation is WdfRequestGetInformation at that point. -/
structure SendEnv where
  wdfRequestCreateStatus : NtStatus
  wdfRequestReuseStatus : NtStatus
  memoryCreateRequestStatus : NtStatus
  memoryCreateResponseStatus : NtStatus
  formatStatus : NtStatus
  bufferPoolGetStatus : NtStatus
  collectionAddStatus : NtStatus
  timerAllocStatus : NtStatus
  wdfRequestSendOk : Bool
  requestStatusAfter : NtStatus
  requestInformation : Nat
deriving DecidableEq, Repr

/-- A SendEnv in which every external call succeeds and the target accepts
the request. -/
def allOkSendEnv : SendEnv :=
  { wdfRequestCreateStatus := .success
    wdfRequestReuseStatus := .success
    memoryCreateRequestStatus := .success
    memoryCreateResponseStatus := .success
    formatStatus := .success
    bufferPoolGetStatus := .success
    collectionAddStatus := .success
    timerAllocStatus := .success
    wdfRequestSendOk := true
    requestStatusAfter := .success
    requestInformation := 0 }

/-- The outputs of RequestTarget_RequestSendReuse: the returned NTSTATUS,
the final module state, whether WdfRequestReuse / the format call /
WdfRequestSend were reached, the value written to *DmfRequestIdCancel, and
*BytesWritten. -/
structure ReuseSendResult where
  status : NtStatus
  state : ModuleState
  rearmed : Bool
  formatted : Bool
  sentToTarget : Bool
  dmfRequestIdCancelOut : Option Nat
  bytesWritten : Nat
deriving DecidableEq, Repr

/-- The Exit label of RequestTarget_RequestSendReuse.  When abortReuse is
still set (the request was not handed to the target) the call undoes what
it did: RequestInUse is cleared on the looked-up request and the two
WDFMEMORY wrappers are deleted. -/
def sendReuseExit (s : ModuleState) (request : Option Nat)
    (memoryForRequest memoryForResponse : Option Nat) (abortReuse : Bool) :
    ModuleState :=
  if abortReuse then
    let s1 := match request with
      | some id => setCtx s id (fun c => { c with requestInUse := false })
      | none => s
    let s2 := match memoryForRequest with
      | some m => deleteMemory s1 m
      | none => s1
    match memoryForResponse with
    | some m => deleteMemory s2 m
    | none => s2
  else s

/-- RequestTarget_RequestSendReuse.  Looks up (and marks in-use) the reuse
request for the given cookie, re-arms it with WdfRequestReuse, wraps the
caller buffers, formats the request, takes a completion context from the
buffer pool, optionally assigns a fresh cancel id and registers the request
in the pending collection, allocates the timer and sends.  Every failure
before a successful WdfRequestSend runs the abort path of the Exit label. -/
def requestSendReuse (s : ModuleState) (dmfRequestIdReuse : Nat)
    (p : SendParams) (env : SendEnv) : ReuseSendResult :=
  let sr := reuseListSearch s dmfRequestIdReuse
  match sr.2 with
  | none =>
      { status := .objectIdNotFound
        state := sendReuseExit sr.1 none none none true
        rearmed := false
        formatted := false
        sentToTarget := false
        dmfRequestIdCancelOut := none
        bytesWritten := 0 }
  | some request =>
      let s0 := sr.1
      if ntSuccess env.wdfRequestReuseStatus = false then
        { status := env.wdfRequestReuseStatus
          state := sendReuseExit s0 (some request) none none true
          rearmed := true
          formatted := false
          sentToTarget := false
          dmfRequestIdCancelOut := none
          bytesWritten := 0 }
      else if 0 < p.requestLength ∧ ntSuccess env.memoryCreateRequestStatus = false then
        { status := env.memoryCreateRequestStatus
          state := sendReuseExit s0 (some request) none none true
          rearmed := true
          formatted := false
          sentToTarget := false
          dmfRequestIdCancelOut := none
          bytesWritten := 0 }
      else
      let c1 := if 0 < p.requestLength then
                  let c := createMemory s0 request
                  (c.1, some c.2)
                else (s0, none)
      let s1 := c1.1
      let memoryForRequest := c1.2
      if 0 < p.responseLength ∧ ntSuccess env.memoryCreateResponseStatus = false then
        { status := env.memoryCreateResponseStatus
          state := sendReuseExit s1 (some request) memoryForRequest none true
          rearmed := true
          formatted := false
          sentToTarget := false
          dmfRequestIdCancelOut := none
          bytesWritten := 0 }
      else
      let c2 := if 0 < p.responseLength then
                  let c := createMemory s1 request
                  (c.1, some c.2)
                else (s1, none)
      let s2 := c2.1
      let memoryForResponse := c2.2
      if ntSuccess env.formatStatus = false then
        { status := env.formatStatus
          state := sendReuseExit s2 (some request) memoryForRequest memoryForResponse true
          rearmed := true
          formatted := true
          sentToTarget := false
          dmfRequestIdCancelOut := none
          bytesWritten := 0 }
      else if p.isSynchronousRequest = false ∧ p.completionOption = .dfault then
        -- neither Dispatch nor Passive: STATUS_INVALID_PARAMETER
        { status := .invalidParameter
          state := sendReuseExit s2 (some request) memoryForRequest memoryForResponse true
          rearmed := true
          formatted := true
          sentToTarget := false
          dmfRequestIdCancelOut := none
          bytesWritten := 0 }
      else if p.isSynchronousRequest = false ∧ ntSuccess env.bufferPoolGetStatus = false then
        { status := env.bufferPoolGetStatus
          state := sendReuseExit s2 (some request) memoryForRequest memoryForResponse true
          rearmed := true
          formatted := true
          sentToTarget := false
          dmfRequestIdCancelOut := none
          bytesWritten := 0 }
      else
      let s3 := if p.isSynchronousRequest = false then bufferPoolGet s2 else s2
      let tk := if p.isSynchronousRequest = false ∧ p.wantCancel then
                  let r := interlockedIncrement64 s3
                  (setCtx r.2 request (fun c => { c with uniqueRequestIdCancel := r.1 }),
                   some r.1)
                else (s3, none)
      let s4 := tk.1
      let dmfRequestIdCancelLocal := tk.2
      if p.isSynchronousRequest = false ∧ p.wantCancel ∧
          ntSuccess env.collectionAddStatus = false then
        { status := env.collectionAddStatus
          state := sendReuseExit s4 (some request) memoryForRequest memoryForResponse true
          rearmed := true
          formatted := true
          sentToTarget := false
          dmfRequestIdCancelOut := none
          bytesWritten := 0 }
      else
      let s5 := if p.isSynchronousRequest = false ∧ p.wantCancel then
                  pendingListAdd s4 request
                else s4
      if ntSuccess env.timerAllocStatus = false then
        { status := env.timerAllocStatus
          state := sendReuseExit s5 (some request) memoryForRequest memoryForResponse true
          rearmed := true
          formatted := true
          sentToTarget := false
          dmfRequestIdCancelOut := none
          bytesWritten := 0 }
      else
      let requestSendResult := env.wdfRequestSendOk
      if requestSendResult = false ∨ p.isSynchronousRequest = true then
        let s6 := if p.wantCancel then pendingListRemove s5 request else s5
        if ntSuccess env.requestStatusAfter = false then
          { status := env.requestStatusAfter
            state := sendReuseExit s6 (some request) memoryForRequest memoryForResponse
              (!requestSendResult)
            rearmed := true
            formatted := true
            sentToTarget := true
            dmfRequestIdCancelOut := none
            bytesWritten := 0 }
        else
          { status := env.requestStatusAfter
            state := sendReuseExit s6 (some request) memoryForRequest memoryForResponse
              (!requestSendResult)
            rearmed := true
            formatted := true
            sentToTarget := true
            dmfRequestIdCancelOut := none
            bytesWritten := env.requestInformation }
      else
        { status := .success
          state := s5
          rearmed := true
          formatted := true
          sentToTarget := true
          dmfRequestIdCancelOut := dmfRequestIdCancelLocal
          bytesWritten := 0 }

/-- The outputs of RequestTarget_RequestCreateAndSend. -/
structure CreateSendResult where
  status : NtStatus
  state : ModuleState
  requestId : Option Nat
  formatted : Bool
  sentToTarget : Bool
  dmfRequestIdCancelOut : Option Nat
  bytesWritten : Nat
deriving DecidableEq, Repr

/-- The Exit label of RequestTarget_RequestCreateAndSend: a synchronous
request is always deleted; an asynchronous request is deleted when the call
is returning a failure status. -/
def createAndSendExit (s : ModuleState) (request : Option Nat)
    (isSynchronousRequest : Bool) (status : NtStatus) : ModuleState :=
  match request with
  | none => s
  | some rid =>
      if isSynchronousRequest then deleteRequestObject s rid
      else if ntSuccess status = false then deleteRequestObject s rid
      else s

/-- RequestTarget_RequestCreateAndSend.  Creates a WDFREQUEST with a
zero-initialized UNIQUE_REQUEST context, wraps the caller buffers, formats
the request, and for asynchronous sends takes a completion context from the
buffer pool and optionally assigns a fresh cancel id and registers the
request in the pending collection; then allocates the timer and sends. -/
def requestCreateAndSend (s : ModuleState) (p : SendParams) (env : SendEnv) :
    CreateSendResult :=
  if ntSuccess env.wdfRequestCreateStatus = false then
    { status := env.wdfRequestCreateStatus
      state := s
      requestId := none
      formatted := false
      sentToTarget := false
      dmfRequestIdCancelOut := none
      bytesWritten := 0 }
  else
  let c := createRequestObject s
  let s0 := c.1
  let request := c.2
  if 0 < p.requestLength ∧ ntSuccess env.memoryCreateRequestStatus = false then
    { status := env.memoryCreateRequestStatus
      state := createAndSendExit s0 (some request) p.isSynchronousRequest
        env.memoryCreateRequestStatus
      requestId := some request
      formatted := false
      sentToTarget := false
      dmfRequestIdCancelOut := none
      bytesWritten := 0 }
  else
  let c1 := if 0 < p.requestLength then
              let m := createMemory s0 request
              (m.1, some m.2)
            else (s0, none)
  let s1 := c1.1
  if 0 < p.responseLength ∧ ntSuccess env.memoryCreateResponseStatus = false then
    { status := env.memoryCreateResponseStatus
      state := createAndSendExit s1 (some request) p.isSynchronousRequest
        env.memoryCreateResponseStatus
      requestId := some request
      formatted := false
      sentToTarget := false
      dmfRequestIdCancelOut := none
      bytesWritten := 0 }
  else
  let c2 := if 0 < p.responseLength then
              let m := createMemory s1 request
              (m.1, some m.2)
            else (s1, none)
  let s2 := c2.1
  if ntSuccess env.formatStatus = false then
    { status := env.formatStatus
      state := createAndSendExit s2 (some request) p.isSynchronousRequest env.formatStatus
      requestId := some request
      formatted := true
      sentToTarget := false
      dmfRequestIdCancelOut := none
      bytesWritten := 0 }
  else if p.isSynchronousRequest = false ∧ ntSuccess env.bufferPoolGetStatus = false then
    { status := env.bufferPoolGetStatus
      state := createAndSendExit s2 (some request) p.isSynchronousRequest
        env.bufferPoolGetStatus
      requestId := some request
      formatted := true
      sentToTarget := false
      dmfRequestIdCancelOut := none
      bytesWritten := 0 }
  else
  let s3 := if p.isSynchronousRequest = false then bufferPoolGet s2 else s2
  -- completion-routine selection cannot fail here: an unexpected
  -- CompletionOption falls back to RequestTarget_CompletionRoutine
  let tk := if p.isSynchronousRequest = false ∧ p.wantCancel then
              let r := interlockedIncrement64 s3
              (setCtx r.2 request (fun c => { c with uniqueRequestIdCancel := r.1 }),
               some r.1)
            else (s3, none)
  let s4 := tk.1
  let dmfRequestIdCancelLocal := tk.2
  if p.isSynchronousRequest = false ∧ p.wantCancel ∧
      ntSuccess env.collectionAddStatus = false then
    { status := env.collectionAddStatus
      state := createAndSendExit s4 (some request) p.isSynchronousRequest
        env.collectionAddStatus
      requestId := some request
      formatted := true
      sentToTarget := false
      dmfRequestIdCancelOut := none
      bytesWritten := 0 }
  else
  let s5 := if p.isSynchronousRequest = false ∧ p.wantCancel then
              pendingListAdd s4 request
            else s4
  if ntSuccess env.timerAllocStatus = false then
    { status := env.timerAllocStatus
      state := createAndSendExit s5 (some request) p.isSynchronousRequest
        env.timerAllocStatus
      requestId := some request
      formatted := true
      sentToTarget := false
      dmfRequestIdCancelOut := none
      bytesWritten := 0 }
  else
  let requestSendResult := env.wdfRequestSendOk
  if requestSendResult = false ∨ p.isSynchronousRequest = true then
    let s6 := if p.wantCancel then pendingListRemove s5 request else s5
    if ntSuccess env.requestStatusAfter = false then
      { status := env.requestStatusAfter
        state := createAndSendExit s6 (some request) p.isSynchronousRequest
          env.requestStatusAfter
        requestId := some request
        formatted := true
        sentToTarget := true
        dmfRequestIdCancelOut := none
        bytesWritten := 0 }
    else
      { status := env.requestStatusAfter
        state := createAndSendExit s6 (some request) p.isSynchronousRequest
          env.requestStatusAfter
        requestId := some request
        formatted := true
        sentToTarget := true
        dmfRequestIdCancelOut := none
        bytesWritten := env.requestInformation }
  else
    { status := .success
      state := s5
      requestId := some request
      formatted := true
      sentToTarget := true
      dmfRequestIdCancelOut := dmfRequestIdCancelLocal
      bytesWritten := 0 }

/-! ## The reuse-create / reuse-delete / cancel Methods -/

/-- Environment for DMF_RequestTarget_ReuseCreate. -/
structure ReuseCreateEnv where
  moduleReferenceOk : Bool
  wdfRequestCreateStatus : NtStatus
  collectionAddStatus : NtStatus
deriving DecidableEq, Repr

/-- The outputs of DMF_RequestTarget_ReuseCreate. -/
structure ReuseCreateResult where
  status : NtStatus
  state : ModuleState
  dmfRequestIdReuseOut : Option Nat
deriving DecidableEq, Repr

/-- DMF_RequestTarget_ReuseCreate: creates a WDFREQUEST with a
UNIQUE_REQUEST context, assigns a globally unique reuse id from the
process-wide counter, adds the request to the reuse collection, and takes
an extra reference so the request survives until the delete Method. -/
def reuseCreate (s : ModuleState) (env : ReuseCreateEnv) : ReuseCreateResult :=
  if env.moduleReferenceOk = false then
    { status := .unsuccessful, state := s, dmfRequestIdReuseOut := none }
  else if ntSuccess env.wdfRequestCreateStatus = false then
    { status := env.wdfRequestCreateStatus, state := s, dmfRequestIdReuseOut := none }
  else
  let c := createRequestObject s
  let s0 := c.1
  let request := c.2
  let t := interlockedIncrement64 s0
  let tok := t.1
  let s1 := setCtx t.2 request (fun ctx => { ctx with uniqueRequestIdReuse := tok })
  if ntSuccess env.collectionAddStatus = false then
    { status := env.collectionAddStatus
      state := deleteRequestObject s1 request
      dmfRequestIdReuseOut := none }
  else
  let s2 := reuseListAdd s1 request
  let s3 := referenceObject s2 request
  { status := .success, state := s3, dmfRequestIdReuseOut := some tok }

/-- The outputs of DMF_RequestTarget_ReuseDelete. -/
structure ReuseDeleteResult where
  returnValue : Bool
  state : ModuleState
deriving DecidableEq, Repr

/-- DMF_RequestTarget_ReuseDelete: looks the request up with
RequestTarget_PendingCollectionReuseListSearch (the search that fails on an
in-use slot and otherwise marks it in-use), removes it from the reuse
collection, deletes it and drops the extra reference. -/
def reuseDelete (s : ModuleState) (tok : Nat) : ReuseDeleteResult :=
  let sr := reuseListSearch s tok
  match sr.2 with
  | none => { returnValue := false, state := sr.1 }
  | some requestToDelete =>
      let s1 := sr.1
      let s2 := reuseListRemove s1 requestToDelete
      let s3 := deleteRequestObject s2 requestToDelete
      let s4 := dereferenceObject s3 requestToDelete
      { returnValue := true, state := s4 }

/-- Environment for DMF_RequestTarget_Cancel:
whether DMF_ModuleReference succeeds and what WdfRequestCancelSentRequest
returns for the referenced request. -/
structure CancelEnv where
  moduleReferenceOk : Bool
  wdfRequestCancelSentRequestResult : Bool
deriving DecidableEq, Repr

/-- The outputs of DMF_RequestTarget_Cancel. -/
structure CancelResult where
  returnValue : Bool
  state : ModuleState
deriving DecidableEq, Repr

/-- DMF_RequestTarget_Cancel: find-and-reference the pending request by its
cancel id; when found, ask the target to cancel it and return the target's
answer, then drop the reference. -/
def cancelMethod (s : ModuleState) (tok : Nat) (env : CancelEnv) : CancelResult :=
  if env.moduleReferenceOk = false then
    { returnValue := false, state := s }
  else
  let sr := pendingListSearchAndReference s tok
  match sr.2 with
  | none => { returnValue := false, state := sr.1 }
  | some requestToCancel =>
      let r := env.wdfRequestCancelSentRequestResult
      let s1 := dereferenceObject sr.1 requestToCancel
      { returnValue := r, state := s1 }

/-! ## Completion dispatch (RequestTarget_ProcessAsynchronousRequestRoot) -/

/-- The externally visible actions of the completion dispatcher, in the
order the dispatcher performs them. -/
inductive CompletionEvent
  | removedFromPending (found : Bool)
  | clearedInUse
  | clientCallbackInvoked (inputBuffer : Option Nat) (inputBufferSize : Nat)
      (outputBuffer : Option Nat) (outputBufferSize : Nat) (status : NtStatus)
  | bufferPoolPut
  | requestDeleted
  | moduleDereferenced
deriving DecidableEq, Repr

/-- The data the completion dispatcher reads from the completed request:
WdfRequestGetStatus, WdfRequestGetCompletionParams, and whether a client
callback was registered for this send. -/
structure CompletionEnv where
  requestStatus : NtStatus
  completionParams : CompletionParams
  hasCallback : Bool
deriving DecidableEq, Repr

/-- The outputs of RequestTarget_ProcessAsynchronousRequestRoot: the final
state, the ordered event trace, and the module state at the moment the
client callback runs (after step 5 of the dispatcher's sequence). -/
structure CompletionResult where
  state : ModuleState
  events : List CompletionEvent
  callbackPointState : ModuleState
deriving DecidableEq, Repr

/-- RequestTarget_ProcessAsynchronousRequestRoot: remove the request from
the pending asynchronous collection if it is still there, read the
completion status and parameters, extract the typed buffers, clear
RequestInUse for a reuse request, invoke the client callback if one was
registered, return the completion context to the buffer pool, delete the
request unless it is a reuse request, and drop the module reference taken
at send time. -/
def processAsynchronousRequestRoot (s : ModuleState) (request : Nat)
    (requestType : RequestType) (env : CompletionEnv) (reuseRequest : Bool) :
    CompletionResult :=
  let found := (listSearchAndRemove request s.pendingAsynchronousRequests).2
  let s0 := pendingListRemove s request
  let ntStatus := env.requestStatus
  let buffers := completionParamsInputBufferAndOutputBufferGet env.completionParams
    requestType
  let s1 := if reuseRequest then
              setCtx s0 request (fun c => { c with requestInUse := false })
            else s0
  let ev1 : List CompletionEvent :=
    [.removedFromPending found] ++ (if reuseRequest then [.clearedInUse] else [])
  let ev2 := if env.hasCallback then
               ev1 ++ [.clientCallbackInvoked buffers.inputBuffer buffers.inputBufferSize
                 buffers.outputBuffer buffers.outputBufferSize ntStatus]
             else ev1
  let s2 := bufferPoolPut s1
  let ev3 := ev2 ++ [.bufferPoolPut]
  let s3 := if reuseRequest then s2 else deleteRequestObject s2 request
  let ev4 := if reuseRequest then ev3 else ev3 ++ [.requestDeleted]
  { state := s3
    events := ev4 ++ [.moduleDereferenced]
    callbackPointState := s1 }

/-! ## The operations of one manager instance -/

/-- One invocation of a modeled entry point of the module, together with
the outcomes of the external calls it makes. -/
inductive Op
  | createAndSendOp (p : SendParams) (env : SendEnv)
  | reuseCreateOp (env : ReuseCreateEnv)
  | reuseSendOp (tok : Nat) (p : SendParams) (env : SendEnv)
  | reuseDeleteOp (tok : Nat)
  | cancelOp (tok : Nat) (env : CancelEnv)
  | completeOp (request : Nat) (requestType : RequestType) (env : CompletionEnv)
      (reuse : Bool)
deriving DecidableEq, Repr

/-- The state transition of one operation. -/
def applyOp (s : ModuleState) : Op → ModuleState
  | .createAndSendOp p env => (requestCreateAndSend s p env).state
  | .reuseCreateOp env => (reuseCreate s env).state
  | .reuseSendOp tok p env => (requestSendReuse s tok p env).state
  | .reuseDeleteOp tok => (reuseDelete s tok).state
  | .cancelOp tok env => (cancelMethod s tok env).state
  | .completeOp r rt env reuse => (processAsynchronousRequestRoot s r rt env reuse).state

/-- Run a sequence of operations. -/
def runOps (s : ModuleState) : List Op → ModuleState
  | [] => s
  | op :: rest => runOps (applyOp s op) rest

/-! ## DMF_RequestTarget_Close -/

/-- One polling loop of DMF_RequestTarget_Close over one collection.
obs k is the count WdfCollectionGetCount reads at the k-th poll (obs 0 is
the read before the loop, each later read follows a 50 ms
DMF_Utility_DelayMilliseconds); the loop spins until a read returns 0;
fuel bounds the number of reads so the model is total.  Returns the index
of the read that observed the collection empty, at which point Close
proceeds to delete the collection. -/
def closeDrainLoop (obs : Nat → Nat) : Nat → Nat → Option Nat
  | 0, _ => none
  | fuel + 1, k => if obs k = 0 then some k else closeDrainLoop obs fuel (k + 1)

/-- What Close observes: the count of each collection at each poll, as
concurrent completions and deletes remove entries. -/
structure CloseEnv where
  pendingObs : Nat → Nat
  reuseObs : Nat → Nat

/-- DMF_RequestTarget_Close: drain PendingAsynchronousRequests and delete
it, then drain PendingReuseRequests and delete it.  Returns the poll
indices at which each collection was observed empty (and hence released),
or none when the fuel ran out before a drain finished — the real loop
blocks for as long as it takes. -/
def closeModule (env : CloseEnv) (fuel : Nat) : Option (Nat × Nat) :=
  match closeDrainLoop env.pendingObs fuel 0 with
  | none => none
  | some k1 =>
      match closeDrainLoop env.reuseObs fuel 0 with
      | none => none
      | some k2 => some (k1, k2)

/-! ## Token-counter bookkeeping -/

/-- How one operation may touch the process-wide counter: it either leaves
the counter and the token history alone, or performs exactly one
InterlockedIncrement64. -/
def TokenStep (s t : ModuleState) : Prop :=
  (t.counter = s.counter ∧ t.issuedTokens = s.issuedTokens) ∨
  (t.counter = (s.counter + 1) % UINT64MOD ∧
    t.issuedTokens = (s.counter + 1) % UINT64MOD :: s.issuedTokens)

/-- The token history after n increments of the 64-bit counter starting at
zero, most recent first. -/
def tokenHistory (n : Nat) : List Nat :=
  ((List.range n).map (fun i => (i + 1) % UINT64MOD)).reverse

/-- The counter and the ghost token history agree with a pure count of the
increments performed so far. -/
def TokenInv (s : ModuleState) : Prop :=
  s.counter = s.issuedTokens.length % UINT64MOD ∧
  s.issuedTokens = tokenHistory s.issuedTokens.length

/-! ## Concrete example data -/

/-- A ReuseCreateEnv in which every external call succeeds. -/
def exampleReuseCreateEnv : ReuseCreateEnv :=
  { moduleReferenceOk := true
    wdfRequestCreateStatus := .success
    collectionAddStatus := .success }

/-- A manager with one reuse slot (request id 1, reuse id 1, not in use). -/
def exampleReuseState : ModuleState :=
  (reuseCreate initialState exampleReuseCreateEnv).state

/-- Parameters of an asynchronous ioctl send with a requested cancel id. -/
def exampleAsyncSendParams : SendParams :=
  { isSynchronousRequest := false
    requestLength := 16
    responseLength := 32
    requestType := .ioctl
    completionOption := .dispatch
    wantCancel := true }

/-- The manager of exampleReuseState after a successful asynchronous send
against reuse id 1: the slot is now in use. -/
def exampleInUseState : ModuleState :=
  (requestSendReuse exampleReuseState 1 exampleAsyncSendParams allOkSendEnv).state

/-- A SendEnv in which everything succeeds up to WdfRequestSend, which
fails; WdfRequestGetStatus then reports the failure. -/
def failedSendEnv : SendEnv :=
  { allOkSendEnv with wdfRequestSendOk := false, requestStatusAfter := .unsuccessful }

/-- Completion data for a device-control completion that transferred 20 of
32 output bytes. -/
def exampleCompletionEnv : CompletionEnv :=
  { requestStatus := .success
    completionParams :=
      { readLength := 0
        readBuffer := none
        writeLength := 0
        writeBuffer := none
        ioctlInputBuffer := some { ptrId := 7, size := 16 }
        ioctlOutputBuffer := some { ptrId := 8, size := 32 }
        ioctlOutputLength := 20 }
    hasCallback := true }

/-- A Close environment in which the pending collection drains after two
polls and the reuse collection is already empty. -/
def exampleCloseEnv : CloseEnv :=
  { pendingObs := fun k => if k < 2 then 1 else 0
    reuseObs := fun _ => 0 }

/-- Every entry of the reuse collection whose live object carries this reuse
id has its in-use mark set (the condition under which the reuse search
reports not-found for the id).  Stated over the object list so it is
decidable at concrete states. -/
abbrev AllReuseHoldersInUse (s : ModuleState) (tok : Nat) : Prop :=
  ∀ id ∈ s.pendingReuseRequests, ∀ o ∈ s.objects, o.id = id →
    o.ctx.uniqueRequestIdReuse = tok → o.ctx.requestInUse = true

/-- No entry of the pending asynchronous collection carries this cancel id.
Stated over the object list so it is decidable at concrete states. -/
abbrev CancelIdAbsent (s : ModuleState) (tok : Nat) : Prop :=
  ∀ id ∈ s.pendingAsynchronousRequests, ∀ o ∈ s.objects, o.id = id →
    o.ctx.uniqueRequestIdCancel ≠ tok

/-! ## Frame lemmas for the state primitives -/

@[simp] lemma setCtx_counter (s : ModuleState) (id : Nat) (f : UniqueRequest → UniqueRequest) :
    (setCtx s id f).counter = s.counter := rfl

@[simp] lemma setCtx_issuedTokens (s : ModuleState) (id : Nat) (f : UniqueRequest → UniqueRequest) :
    (setCtx s id f).issuedTokens = s.issuedTokens := rfl

@[simp] lemma setCtx_pendingReuse (s : ModuleState) (id : Nat) (f : UniqueRequest → UniqueRequest) :
    (setCtx s id f).pendingReuseRequests = s.pendingReuseRequests := rfl

@[simp] lemma setCtx_pendingAsync (s : ModuleState) (id : Nat) (f : UniqueRequest → UniqueRequest) :
    (setCtx s id f).pendingAsynchronousRequests = s.pendingAsynchronousRequests := rfl

@[simp] lemma setCtx_liveMemories (s : ModuleState) (id : Nat) (f : UniqueRequest → UniqueRequest) :
    (setCtx s id f).liveMemories = s.liveMemories := rfl

@[simp] lemma setCtx_poolOutstanding (s : ModuleState) (id : Nat) (f : UniqueRequest → UniqueRequest) :
    (setCtx s id f).poolOutstanding = s.poolOutstanding := rfl

@[simp] lemma referenceObject_counter (s : ModuleState) (id : Nat) :
    (referenceObject s id).counter = s.counter := rfl

@[simp] lemma referenceObject_issuedTokens (s : ModuleState) (id : Nat) :
    (referenceObject s id).issuedTokens = s.issuedTokens := rfl

@[simp] lemma referenceObject_pendingReuse (s : ModuleState) (id : Nat) :
    (referenceObject s id).pendingReuseRequests = s.pendingReuseRequests := rfl

@[simp] lemma referenceObject_pendingAsync (s : ModuleState) (id : Nat) :
    (referenceObject s id).pendingAsynchronousRequests = s.pendingAsynchronousRequests := rfl

@[simp] lemma dereferenceObject_counter (s : ModuleState) (id : Nat) :
    (dereferenceObject s id).counter = s.counter := rfl

@[simp] lemma dereferenceObject_issuedTokens (s : ModuleState) (id : Nat) :
    (dereferenceObject s id).issuedTokens = s.issuedTokens := rfl

@[simp] lemma dereferenceObject_pendingReuse (s : ModuleState) (id : Nat) :
    (dereferenceObject s id).pendingReuseRequests = s.pendingReuseRequests := rfl

@[simp] lemma deleteRequestObject_counter (s : ModuleState) (id : Nat) :
    (deleteRequestObject s id).counter = s.counter := rfl

@[simp] lemma deleteRequestObject_issuedTokens (s : ModuleState) (id : Nat) :
    (deleteRequestObject s id).issuedTokens = s.issuedTokens := rfl

@[simp] lemma deleteRequestObject_pendingReuse (s : ModuleState) (id : Nat) :
    (deleteRequestObject s id).pendingReuseRequests = s.pendingReuseRequests := rfl

@[simp] lemma deleteRequestObject_pendingAsync (s : ModuleState) (id : Nat) :
    (deleteRequestObject s id).pendingAsynchronousRequests = s.pendingAsynchronousRequests := rfl

@[simp] lemma deleteMemory_counter (s : ModuleState) (m : Nat) :
    (deleteMemory s m).counter = s.counter := rfl

@[simp] lemma deleteMemory_issuedTokens (s : ModuleState) (m : Nat) :
    (deleteMemory s m).issuedTokens = s.issuedTokens := rfl

@[simp] lemma deleteMemory_pendingReuse (s : ModuleState) (m : Nat) :
    (deleteMemory s m).pendingReuseRequests = s.pendingReuseRequests := rfl

@[simp] lemma deleteMemory_pendingAsync (s : ModuleState) (m : Nat) :
    (deleteMemory s m).pendingAsynchronousRequests = s.pendingAsynchronousRequests := rfl

@[simp] lemma deleteMemory_objects (s : ModuleState) (m : Nat) :
    (deleteMemory s m).objects = s.objects := rfl

@[simp] lemma createMemory_counter (s : ModuleState) (p : Nat) :
    (createMemory s p).1.counter = s.counter := rfl

@[simp] lemma createMemory_issuedTokens (s : ModuleState) (p : Nat) :
    (createMemory s p).1.issuedTokens = s.issuedTokens := rfl

@[simp] lemma createMemory_pendingReuse (s : ModuleState) (p : Nat) :
    (createMemory s p).1.pendingReuseRequests = s.pendingReuseRequests := rfl

@[simp] lemma createMemory_objects (s : ModuleState) (p : Nat) :
    (createMemory s p).1.objects = s.objects := rfl

@[simp] lemma createRequestObject_counter (s : ModuleState) :
    (createRequestObject s).1.counter = s.counter := rfl

@[simp] lemma createRequestObject_issuedTokens (s : ModuleState) :
    (createRequestObject s).1.issuedTokens = s.issuedTokens := rfl

@[simp] lemma createRequestObject_pendingReuse (s : ModuleState) :
    (createRequestObject s).1.pendingReuseRequests = s.pendingReuseRequests := rfl

@[simp] lemma pendingListAdd_counter (s : ModuleState) (id : Nat) :
    (pendingListAdd s id).counter = s.counter := rfl

@[simp] lemma pendingListAdd_issuedTokens (s : ModuleState) (id : Nat) :
    (pendingListAdd s id).issuedTokens = s.issuedTokens := rfl

@[simp] lemma pendingListAdd_pendingReuse (s : ModuleState) (id : Nat) :
    (pendingListAdd s id).pendingReuseRequests = s.pendingReuseRequests := rfl

@[simp] lemma pendingListAdd_objects (s : ModuleState) (id : Nat) :
    (pendingListAdd s id).objects = s.objects := rfl

@[simp] lemma reuseListAdd_counter (s : ModuleState) (id : Nat) :
    (reuseListAdd s id).counter = s.counter := rfl

@[simp] lemma reuseListAdd_issuedTokens (s : ModuleState) (id : Nat) :
    (reuseListAdd s id).issuedTokens = s.issuedTokens := rfl

@[simp] lemma interlockedIncrement64_counter (s : ModuleState) :
    (interlockedIncrement64 s).2.counter = (s.counter + 1) % UINT64MOD := rfl

@[simp] lemma interlockedIncrement64_issuedTokens (s : ModuleState) :
    (interlockedIncrement64 s).2.issuedTokens =
      (s.counter + 1) % UINT64MOD :: s.issuedTokens := rfl

@[simp] lemma interlockedIncrement64_fst (s : ModuleState) :
    (interlockedIncrement64 s).1 = (s.counter + 1) % UINT64MOD := rfl

@[simp] lemma interlockedIncrement64_pendingReuse (s : ModuleState) :
    (interlockedIncrement64 s).2.pendingReuseRequests = s.pendingReuseRequests := rfl

@[simp] lemma interlockedIncrement64_objects (s : ModuleState) :
    (interlockedIncrement64 s).2.objects = s.objects := rfl

@[simp] lemma bufferPoolGet_counter (s : ModuleState) :
    (bufferPoolGet s).counter = s.counter := rfl

@[simp] lemma bufferPoolGet_issuedTokens (s : ModuleState) :
    (bufferPoolGet s).issuedTokens = s.issuedTokens := rfl

@[simp] lemma bufferPoolGet_pendingReuse (s : ModuleState) :
    (bufferPoolGet s).pendingReuseRequests = s.pendingReuseRequests := rfl

@[simp] lemma bufferPoolGet_pendingAsync (s : ModuleState) :
    (bufferPoolGet s).pendingAsynchronousRequests = s.pendingAsynchronousRequests := rfl

@[simp] lemma bufferPoolGet_objects (s : ModuleState) :
    (bufferPoolGet s).objects = s.objects := rfl

@[simp] lemma bufferPoolGet_liveMemories (s : ModuleState) :
    (bufferPoolGet s).liveMemories = s.liveMemories := rfl

@[simp] lemma bufferPoolPut_counter (s : ModuleState) :
    (bufferPoolPut s).counter = s.counter := rfl

@[simp] lemma bufferPoolPut_issuedTokens (s : ModuleState) :
    (bufferPoolPut s).issuedTokens = s.issuedTokens := rfl

@[simp] lemma bufferPoolPut_pendingReuse (s : ModuleState) :
    (bufferPoolPut s).pendingReuseRequests = s.pendingReuseRequests := rfl

@[simp] lemma bufferPoolPut_objects (s : ModuleState) :
    (bufferPoolPut s).objects = s.objects := rfl

@[simp] lemma pendingListRemove_counter (s : ModuleState) (id : Nat) :
    (pendingListRemove s id).counter = s.counter := rfl

@[simp] lemma pendingListRemove_issuedTokens (s : ModuleState) (id : Nat) :
    (pendingListRemove s id).issuedTokens = s.issuedTokens := rfl

@[simp] lemma pendingListRemove_pendingReuse (s : ModuleState) (id : Nat) :
    (pendingListRemove s id).pendingReuseRequests = s.pendingReuseRequests := rfl

@[simp] lemma pendingListRemove_objects (s : ModuleState) (id : Nat) :
    (pendingListRemove s id).objects = s.objects := rfl

@[simp] lemma pendingListRemove_poolOutstanding (s : ModuleState) (id : Nat) :
    (pendingListRemove s id).poolOutstanding = s.poolOutstanding := rfl

@[simp] lemma reuseListRemove_counter (s : ModuleState) (id : Nat) :
    (reuseListRemove s id).counter = s.counter := rfl

@[simp] lemma reuseListRemove_issuedTokens (s : ModuleState) (id : Nat) :
    (reuseListRemove s id).issuedTokens = s.issuedTokens := rfl

@[simp] lemma reuseListRemove_objects (s : ModuleState) (id : Nat) :
    (reuseListRemove s id).objects = s.objects := rfl

/-! ## Frame lemmas for the Exit blocks -/

@[simp] lemma sendReuseExit_counter (s : ModuleState) (r m1 m2 : Option Nat) (a : Bool) :
    (sendReuseExit s r m1 m2 a).counter = s.counter := by
  unfold sendReuseExit
  cases a <;> cases r <;> cases m1 <;> cases m2 <;> simp

@[simp] lemma sendReuseExit_issuedTokens (s : ModuleState) (r m1 m2 : Option Nat) (a : Bool) :
    (sendReuseExit s r m1 m2 a).issuedTokens = s.issuedTokens := by
  unfold sendReuseExit
  cases a <;> cases r <;> cases m1 <;> cases m2 <;> simp

@[simp] lemma sendReuseExit_pendingReuse (s : ModuleState) (r m1 m2 : Option Nat) (a : Bool) :
    (sendReuseExit s r m1 m2 a).pendingReuseRequests = s.pendingReuseRequests := by
  unfold sendReuseExit
  cases a <;> cases r <;> cases m1 <;> cases m2 <;> simp

@[simp] lemma createAndSendExit_counter (s : ModuleState) (r : Option Nat) (b : Bool)
    (st : NtStatus) : (createAndSendExit s r b st).counter = s.counter := by
  unfold createAndSendExit
  cases r <;> cases b <;>
    simp [apply_ite ModuleState.counter]

@[simp] lemma createAndSendExit_issuedTokens (s : ModuleState) (r : Option Nat) (b : Bool)
    (st : NtStatus) : (createAndSendExit s r b st).issuedTokens = s.issuedTokens := by
  unfold createAndSendExit
  cases r <;> cases b <;>
    simp [apply_ite ModuleState.issuedTokens]

@[simp] lemma createAndSendExit_pendingReuse (s : ModuleState) (r : Option Nat) (b : Bool)
    (st : NtStatus) :
    (createAndSendExit s r b st).pendingReuseRequests = s.pendingReuseRequests := by
  unfold createAndSendExit
  cases r <;> cases b <;>
    simp [apply_ite ModuleState.pendingReuseRequests]

/-! ## Object lookup lemmas -/

lemma getObject_id_beq {s : ModuleState} {id : Nat} {o : RequestObject}
    (h : getObject s id = some o) : (o.id == id) = true := by
  unfold getObject at h
  have h2 := List.find?_some h
  exact h2

lemma find?_map_preserving (l : List RequestObject) (id : Nat)
    (g : RequestObject → RequestObject) (hg : ∀ o, (g o).id = o.id) :
    (l.map g).find? (fun o => o.id == id) = (l.find? (fun o => o.id == id)).map g := by
  induction l with
  | nil => rfl
  | cons a rest ih =>
      by_cases h : (a.id == id) = true
      · simp [List.find?_cons, hg, h]
      · simp [List.find?_cons, hg, h, ih]

lemma getObject_setCtx (s : ModuleState) (id id2 : Nat)
    (f : UniqueRequest → UniqueRequest) :
    getObject (setCtx s id f) id2 =
      (getObject s id2).map
        (fun o => if o.id == id then { o with ctx := f o.ctx } else o) := by
  unfold getObject setCtx
  exact find?_map_preserving _ _ _
    (fun o => by by_cases h : (o.id == id) = true <;> simp [h])

lemma getObject_setCtx_self {s : ModuleState} {id : Nat} {o : RequestObject}
    (f : UniqueRequest → UniqueRequest) (h : getObject s id = some o) :
    getObject (setCtx s id f) id = some { o with ctx := f o.ctx } := by
  rw [getObject_setCtx, h]
  have hb : (o.id == id) = true := getObject_id_beq h
  simp only [Option.map_some']
  rw [if_pos hb]

lemma getObject_dereferenceObject (s : ModuleState) (id id2 : Nat) :
    getObject (dereferenceObject s id) id2 =
      (getObject s id2).map
        (fun o => if o.id == id then { o with refCount := o.refCount - 1 } else o) := by
  unfold getObject dereferenceObject
  exact find?_map_preserving _ _ _
    (fun o => by by_cases h : (o.id == id) = true <;> simp [h])

lemma getObject_deleteRequestObject_self (s : ModuleState) (id : Nat) :
    getObject (deleteRequestObject s id) id = none := by
  unfold getObject deleteRequestObject
  rw [List.find?_eq_none]
  intro o ho
  have h2 := (List.mem_filter.mp ho).2
  simp only [bne_iff_ne, ne_eq] at h2
  simp [h2]

@[simp] lemma getObject_deleteMemory (s : ModuleState) (m id : Nat) :
    getObject (deleteMemory s m) id = getObject s id := rfl

@[simp] lemma getObject_createMemory (s : ModuleState) (p id : Nat) :
    getObject (createMemory s p).1 id = getObject s id := rfl

@[simp] lemma getObject_pendingListAdd (s : ModuleState) (a id : Nat) :
    getObject (pendingListAdd s a) id = getObject s id := rfl

@[simp] lemma getObject_interlockedIncrement64 (s : ModuleState) (id : Nat) :
    getObject (interlockedIncrement64 s).2 id = getObject s id := rfl

@[simp] lemma getObject_bufferPoolGet (s : ModuleState) (id : Nat) :
    getObject (bufferPoolGet s) id = getObject s id := rfl

@[simp] lemma getObject_bufferPoolPut (s : ModuleState) (id : Nat) :
    getObject (bufferPoolPut s) id = getObject s id := rfl

@[simp] lemma getObject_pendingListRemove (s : ModuleState) (a id : Nat) :
    getObject (pendingListRemove s a) id = getObject s id := rfl

@[simp] lemma getObject_sendReuseExit_abort_eq (s : ModuleState) (rid : Nat)
    (m1 m2 : Option Nat) (id : Nat) :
    getObject (sendReuseExit s (some rid) m1 m2 true) id =
      getObject (setCtx s rid (fun c => { c with requestInUse := false })) id := by
  unfold sendReuseExit
  cases m1 <;> cases m2 <;> simp

lemma getObject_sendReuseExit_abort {s : ModuleState} {rid : Nat} {o : RequestObject}
    (m1 m2 : Option Nat) (h : getObject s rid = some o) :
    getObject (sendReuseExit s (some rid) m1 m2 true) rid =
      some { o with ctx := { o.ctx with requestInUse := false } } := by
  unfold sendReuseExit
  cases m1 <;> cases m2 <;>
    simp [getObject_setCtx_self _ h]

/-! ## Reuse-search lemmas -/

lemma reuseListSearchGo_state (s : ModuleState) (tok : Nat) (l : List Nat) :
    (reuseListSearchGo s tok l).1 = s ∨
    ∃ id, (reuseListSearchGo s tok l).1 =
      setCtx s id (fun c => { c with requestInUse := true }) := by
  induction l with
  | nil => exact Or.inl rfl
  | cons a rest ih =>
      unfold reuseListSearchGo
      cases hg : getObject s a with
      | none => exact Or.inl rfl
      | some o =>
          by_cases h1 : (o.ctx.uniqueRequestIdReuse == tok) = true
          · by_cases h2 : o.ctx.requestInUse = true
            · simp [h1, h2]
            · simp only [h1, if_true, h2, if_false, Bool.not_eq_true] at *
              simp [h2]
              exact Or.inr ⟨a, rfl⟩
          · simpa [h1] using ih

lemma reuseListSearch_state (s : ModuleState) (tok : Nat) :
    (reuseListSearch s tok).1 = s ∨
    ∃ id, (reuseListSearch s tok).1 =
      setCtx s id (fun c => { c with requestInUse := true }) :=
  reuseListSearchGo_state s tok s.pendingReuseRequests

@[simp] lemma reuseListSearch_counter (s : ModuleState) (tok : Nat) :
    (reuseListSearch s tok).1.counter = s.counter := by
  rcases reuseListSearch_state s tok with h | ⟨id, h⟩ <;> simp [h]

@[simp] lemma reuseListSearch_issuedTokens (s : ModuleState) (tok : Nat) :
    (reuseListSearch s tok).1.issuedTokens = s.issuedTokens := by
  rcases reuseListSearch_state s tok with h | ⟨id, h⟩ <;> simp [h]

@[simp] lemma reuseListSearch_pendingReuse (s : ModuleState) (tok : Nat) :
    (reuseListSearch s tok).1.pendingReuseRequests = s.pendingReuseRequests := by
  rcases reuseListSearch_state s tok with h | ⟨id, h⟩ <;> simp [h]

@[simp] lemma reuseListSearch_pendingAsync (s : ModuleState) (tok : Nat) :
    (reuseListSearch s tok).1.pendingAsynchronousRequests =
      s.pendingAsynchronousRequests := by
  rcases reuseListSearch_state s tok with h | ⟨id, h⟩ <;> simp [h]

@[simp] lemma reuseListSearch_poolOutstanding (s : ModuleState) (tok : Nat) :
    (reuseListSearch s tok).1.poolOutstanding = s.poolOutstanding := by
  rcases reuseListSearch_state s tok with h | ⟨id, h⟩ <;> simp [h]

@[simp] lemma reuseListSearch_liveMemories (s : ModuleState) (tok : Nat) :
    (reuseListSearch s tok).1.liveMemories = s.liveMemories := by
  rcases reuseListSearch_state s tok with h | ⟨id, h⟩ <;> simp [h]

lemma reuseListSearchGo_eq_some {s : ModuleState} {tok : Nat} {l : List Nat}
    {s2 : ModuleState} {id : Nat}
    (h : reuseListSearchGo s tok l = (s2, some id)) :
    id ∈ l ∧ ∃ o, getObject s id = some o ∧ o.ctx.uniqueRequestIdReuse = tok ∧
      o.ctx.requestInUse = false ∧
      s2 = setCtx s id (fun c => { c with requestInUse := true }) := by
  induction l with
  | nil => simp [reuseListSearchGo] at h
  | cons a rest ih =>
      unfold reuseListSearchGo at h
      cases hg : getObject s a with
      | none => simp [hg] at h
      | some o =>
          simp only [hg] at h
          by_cases h1 : (o.ctx.uniqueRequestIdReuse == tok) = true
          · by_cases h2 : o.ctx.requestInUse = true
            · simp [h1, h2] at h
            · rw [Bool.not_eq_true] at h2
              rw [if_pos h1, if_neg (by simp [h2])] at h
              have hs2 := congrArg Prod.fst h
              have hid := congrArg Prod.snd h
              simp only at hs2 hid
              have hid2 : a = id := by simpa using hid
              subst hid2
              exact ⟨List.mem_cons_self _ _, o, hg, by simpa using h1, h2, hs2.symm⟩
          · rw [if_neg h1] at h
            obtain ⟨hmem, rest2⟩ := ih h
            exact ⟨List.mem_cons_of_mem _ hmem, rest2⟩

lemma reuseListSearch_eq_some {s s2 : ModuleState} {tok id : Nat}
    (h : reuseListSearch s tok = (s2, some id)) :
    id ∈ s.pendingReuseRequests ∧
    ∃ o, getObject s id = some o ∧ o.ctx.uniqueRequestIdReuse = tok ∧
      o.ctx.requestInUse = false ∧
      s2 = setCtx s id (fun c => { c with requestInUse := true }) :=
  reuseListSearchGo_eq_some h

lemma reuseListSearchGo_none_of_inUse {s : ModuleState} {tok : Nat} {l : List Nat}
    (h : ∀ id ∈ l, ∀ o, getObject s id = some o →
        o.ctx.uniqueRequestIdReuse = tok → o.ctx.requestInUse = true) :
    reuseListSearchGo s tok l = (s, none) := by
  induction l with
  | nil => rfl
  | cons a rest ih =>
      unfold reuseListSearchGo
      cases hg : getObject s a with
      | none => rfl
      | some o =>
          by_cases h1 : (o.ctx.uniqueRequestIdReuse == tok) = true
          · have h2 := h a (List.mem_cons_self _ _) o hg (by simpa using h1)
            simp [h1, h2]
          · dsimp only
            rw [if_neg h1]
            exact ih (fun id hid o2 ho2 htok => h id (List.mem_cons_of_mem _ hid) o2 ho2 htok)

lemma reuseListSearch_none_of_inUse {s : ModuleState} {tok : Nat}
    (h : ∀ id ∈ s.pendingReuseRequests, ∀ o, getObject s id = some o →
        o.ctx.uniqueRequestIdReuse = tok → o.ctx.requestInUse = true) :
    reuseListSearch s tok = (s, none) :=
  reuseListSearchGo_none_of_inUse h

/-! ## Cancel-search lemmas -/

lemma cancelListSearchGo_state (s : ModuleState) (tok : Nat) (l : List Nat) :
    (cancelListSearchGo s tok l).1 = s ∨
    ∃ id, (cancelListSearchGo s tok l).1 = referenceObject s id := by
  induction l with
  | nil => exact Or.inl rfl
  | cons a rest ih =>
      unfold cancelListSearchGo
      cases hg : getObject s a with
      | none => exact Or.inl rfl
      | some o =>
          by_cases h1 : (o.ctx.uniqueRequestIdCancel == tok) = true
          · dsimp only
            rw [if_pos h1]
            exact Or.inr ⟨a, rfl⟩
          · dsimp only
            rw [if_neg h1]
            exact ih

@[simp] lemma pendingListSearchAndReference_counter (s : ModuleState) (tok : Nat) :
    (pendingListSearchAndReference s tok).1.counter = s.counter := by
  rcases cancelListSearchGo_state s tok s.pendingAsynchronousRequests with h | ⟨id, h⟩ <;>
    simp [pendingListSearchAndReference, h]

@[simp] lemma pendingListSearchAndReference_issuedTokens (s : ModuleState) (tok : Nat) :
    (pendingListSearchAndReference s tok).1.issuedTokens = s.issuedTokens := by
  rcases cancelListSearchGo_state s tok s.pendingAsynchronousRequests with h | ⟨id, h⟩ <;>
    simp [pendingListSearchAndReference, h]

@[simp] lemma pendingListSearchAndReference_pendingReuse (s : ModuleState) (tok : Nat) :
    (pendingListSearchAndReference s tok).1.pendingReuseRequests =
      s.pendingReuseRequests := by
  rcases cancelListSearchGo_state s tok s.pendingAsynchronousRequests with h | ⟨id, h⟩ <;>
    simp [pendingListSearchAndReference, h]

lemma cancelListSearchGo_none_of_absent {s : ModuleState} {tok : Nat} {l : List Nat}
    (h : ∀ id ∈ l, ∀ o, getObject s id = some o →
        o.ctx.uniqueRequestIdCancel ≠ tok) :
    cancelListSearchGo s tok l = (s, none) := by
  induction l with
  | nil => rfl
  | cons a rest ih =>
      unfold cancelListSearchGo
      cases hg : getObject s a with
      | none => rfl
      | some o =>
          have h1 : ¬((o.ctx.uniqueRequestIdCancel == tok) = true) := by
            simpa using h a (List.mem_cons_self _ _) o hg
          dsimp only
          rw [if_neg h1]
          exact ih (fun id hid o2 ho2 => h id (List.mem_cons_of_mem _ hid) o2 ho2)

/-! ## Removal lemma -/

lemma listSearchAndRemove_eq_erase (t : Nat) (l : List Nat) :
    (listSearchAndRemove t l).1 = l.erase t := by
  induction l with
  | nil => rfl
  | cons a rest ih =>
      unfold listSearchAndRemove
      rw [List.erase_cons]
      by_cases h : (a == t) = true
      · simp [h, beq_iff_eq.mp h]
      · have h2 : ¬(a = t) := by simpa using h
        simp [h, h2, ih]

/-! ## Frame lemmas for the entry points -/

set_option maxHeartbeats 1000000 in
lemma requestSendReuse_frame (s : ModuleState) (tok : Nat) (p : SendParams)
    (env : SendEnv) :
    TokenStep s (requestSendReuse s tok p env).state ∧
    (requestSendReuse s tok p env).state.pendingReuseRequests =
      s.pendingReuseRequests := by
  have hc := reuseListSearch_counter s tok
  have hi := reuseListSearch_issuedTokens s tok
  have hpr := reuseListSearch_pendingReuse s tok
  unfold requestSendReuse
  rcases hsr : reuseListSearch s tok with ⟨s0, found⟩
  rw [hsr] at hc hi hpr
  dsimp only at hc hi hpr
  cases found with
  | none =>
      exact ⟨Or.inl ⟨by simp [hc], by simp [hi]⟩, by simp [hpr]⟩
  | some request =>
      dsimp only
      by_cases e1 : ntSuccess env.wdfRequestReuseStatus = false
      · rw [if_pos e1]
        exact ⟨Or.inl ⟨by simp [hc], by simp [hi]⟩, by simp [hpr]⟩
      rw [if_neg e1]
      by_cases e2 : 0 < p.requestLength ∧ ntSuccess env.memoryCreateRequestStatus = false
      · rw [if_pos e2]
        exact ⟨Or.inl ⟨by simp [hc], by simp [hi]⟩, by simp [hpr]⟩
      rw [if_neg e2]
      by_cases e3 : 0 < p.responseLength ∧ ntSuccess env.memoryCreateResponseStatus = false
      · rw [if_pos e3]
        exact ⟨Or.inl ⟨by simp [hc, apply_ite Prod.fst, apply_ite ModuleState.counter],
          by simp [hi, apply_ite Prod.fst, apply_ite ModuleState.issuedTokens]⟩,
          by simp [hpr, apply_ite Prod.fst, apply_ite ModuleState.pendingReuseRequests]⟩
      rw [if_neg e3]
      by_cases e4 : ntSuccess env.formatStatus = false
      · rw [if_pos e4]
        exact ⟨Or.inl ⟨by simp [hc, apply_ite Prod.fst, apply_ite ModuleState.counter],
          by simp [hi, apply_ite Prod.fst, apply_ite ModuleState.issuedTokens]⟩,
          by simp [hpr, apply_ite Prod.fst, apply_ite ModuleState.pendingReuseRequests]⟩
      rw [if_neg e4]
      by_cases e5 : p.isSynchronousRequest = false ∧ p.completionOption = .dfault
      · rw [if_pos e5]
        exact ⟨Or.inl ⟨by simp [hc, apply_ite Prod.fst, apply_ite ModuleState.counter],
          by simp [hi, apply_ite Prod.fst, apply_ite ModuleState.issuedTokens]⟩,
          by simp [hpr, apply_ite Prod.fst, apply_ite ModuleState.pendingReuseRequests]⟩
      rw [if_neg e5]
      by_cases e6 : p.isSynchronousRequest = false ∧ ntSuccess env.bufferPoolGetStatus = false
      · rw [if_pos e6]
        exact ⟨Or.inl ⟨by simp [hc, apply_ite Prod.fst, apply_ite ModuleState.counter],
          by simp [hi, apply_ite Prod.fst, apply_ite ModuleState.issuedTokens]⟩,
          by simp [hpr, apply_ite Prod.fst, apply_ite ModuleState.pendingReuseRequests]⟩
      rw [if_neg e6]
      by_cases ew : p.isSynchronousRequest = false ∧ p.wantCancel = true
      · by_cases e7 : p.isSynchronousRequest = false ∧ p.wantCancel = true ∧
            ntSuccess env.collectionAddStatus = false
        · rw [if_pos e7]
          exact ⟨Or.inr ⟨by simp [hc, ew.1, ew.2, apply_ite Prod.fst,
              apply_ite ModuleState.counter],
            by simp [hc, hi, ew.1, ew.2, apply_ite Prod.fst, apply_ite ModuleState.counter,
              apply_ite ModuleState.issuedTokens]⟩,
            by simp [hpr, ew.1, ew.2, apply_ite Prod.fst,
              apply_ite ModuleState.pendingReuseRequests]⟩
        rw [if_neg e7]
        by_cases e8 : ntSuccess env.timerAllocStatus = false
        · rw [if_pos e8]
          exact ⟨Or.inr ⟨by simp [hc, ew.1, ew.2, apply_ite Prod.fst,
              apply_ite ModuleState.counter],
            by simp [hc, hi, ew.1, ew.2, apply_ite Prod.fst, apply_ite ModuleState.counter,
              apply_ite ModuleState.issuedTokens]⟩,
            by simp [hpr, ew.1, ew.2, apply_ite Prod.fst,
              apply_ite ModuleState.pendingReuseRequests]⟩
        rw [if_neg e8]
        by_cases e9 : env.wdfRequestSendOk = false ∨ p.isSynchronousRequest = true
        · rw [if_pos e9]
          by_cases e10 : ntSuccess env.requestStatusAfter = false
          · rw [if_pos e10]
            exact ⟨Or.inr ⟨by simp [hc, ew.1, ew.2, apply_ite Prod.fst,
                apply_ite ModuleState.counter],
              by simp [hc, hi, ew.1, ew.2, apply_ite Prod.fst, apply_ite ModuleState.counter,
                apply_ite ModuleState.issuedTokens]⟩,
              by simp [hpr, ew.1, ew.2, apply_ite Prod.fst,
                apply_ite ModuleState.pendingReuseRequests]⟩
          · rw [if_neg e10]
            exact ⟨Or.inr ⟨by simp [hc, ew.1, ew.2, apply_ite Prod.fst,
                apply_ite ModuleState.counter],
              by simp [hc, hi, ew.1, ew.2, apply_ite Prod.fst, apply_ite ModuleState.counter,
                apply_ite ModuleState.issuedTokens]⟩,
              by simp [hpr, ew.1, ew.2, apply_ite Prod.fst,
                apply_ite ModuleState.pendingReuseRequests]⟩
        · rw [if_neg e9]
          exact ⟨Or.inr ⟨by simp [hc, ew.1, ew.2, apply_ite Prod.fst,
              apply_ite ModuleState.counter],
            by simp [hc, hi, ew.1, ew.2, apply_ite Prod.fst, apply_ite ModuleState.counter,
              apply_ite ModuleState.issuedTokens]⟩,
            by simp [hpr, ew.1, ew.2, apply_ite Prod.fst,
              apply_ite ModuleState.pendingReuseRequests]⟩
      · have e7 : ¬(p.isSynchronousRequest = false ∧ p.wantCancel = true ∧
            ntSuccess env.collectionAddStatus = false) := by tauto
        rw [if_neg e7]
        by_cases e8 : ntSuccess env.timerAllocStatus = false
        · rw [if_pos e8]
          exact ⟨Or.inl ⟨by simp [hc, ew, apply_ite Prod.fst, apply_ite ModuleState.counter],
            by simp [hi, ew, apply_ite Prod.fst, apply_ite ModuleState.issuedTokens]⟩,
            by simp [hpr, ew, apply_ite Prod.fst,
              apply_ite ModuleState.pendingReuseRequests]⟩
        rw [if_neg e8]
        by_cases e9 : env.wdfRequestSendOk = false ∨ p.isSynchronousRequest = true
        · rw [if_pos e9]
          by_cases e10 : ntSuccess env.requestStatusAfter = false
          · rw [if_pos e10]
            exact ⟨Or.inl ⟨by simp [hc, ew, apply_ite Prod.fst, apply_ite ModuleState.counter],
              by simp [hi, ew, apply_ite Prod.fst, apply_ite ModuleState.issuedTokens]⟩,
              by simp [hpr, ew, apply_ite Prod.fst,
                apply_ite ModuleState.pendingReuseRequests]⟩
          · rw [if_neg e10]
            exact ⟨Or.inl ⟨by simp [hc, ew, apply_ite Prod.fst, apply_ite ModuleState.counter],
              by simp [hi, ew, apply_ite Prod.fst, apply_ite ModuleState.issuedTokens]⟩,
              by simp [hpr, ew, apply_ite Prod.fst,
                apply_ite ModuleState.pendingReuseRequests]⟩
        · rw [if_neg e9]
          exact ⟨Or.inl ⟨by simp [hc, ew, apply_ite Prod.fst, apply_ite ModuleState.counter],
            by simp [hi, ew, apply_ite Prod.fst, apply_ite ModuleState.issuedTokens]⟩,
            by simp [hpr, ew, apply_ite Prod.fst,
              apply_ite ModuleState.pendingReuseRequests]⟩

set_option maxHeartbeats 1000000 in
lemma requestCreateAndSend_frame (s : ModuleState) (p : SendParams) (env : SendEnv) :
    TokenStep s (requestCreateAndSend s p env).state ∧
    (requestCreateAndSend s p env).state.pendingReuseRequests =
      s.pendingReuseRequests := by
  unfold requestCreateAndSend
  by_cases e0 : ntSuccess env.wdfRequestCreateStatus = false
  · rw [if_pos e0]
    exact ⟨Or.inl ⟨rfl, rfl⟩, rfl⟩
  rw [if_neg e0]
  dsimp only
  by_cases e2 : 0 < p.requestLength ∧ ntSuccess env.memoryCreateRequestStatus = false
  · rw [if_pos e2]
    exact ⟨Or.inl ⟨by simp, by simp⟩, by simp⟩
  rw [if_neg e2]
  by_cases e3 : 0 < p.responseLength ∧ ntSuccess env.memoryCreateResponseStatus = false
  · rw [if_pos e3]
    exact ⟨Or.inl ⟨by simp [apply_ite Prod.fst, apply_ite ModuleState.counter],
      by simp [apply_ite Prod.fst, apply_ite ModuleState.issuedTokens]⟩,
      by simp [apply_ite Prod.fst, apply_ite ModuleState.pendingReuseRequests]⟩
  rw [if_neg e3]
  by_cases e4 : ntSuccess env.formatStatus = false
  · rw [if_pos e4]
    exact ⟨Or.inl ⟨by simp [apply_ite Prod.fst, apply_ite ModuleState.counter],
      by simp [apply_ite Prod.fst, apply_ite ModuleState.issuedTokens]⟩,
      by simp [apply_ite Prod.fst, apply_ite ModuleState.pendingReuseRequests]⟩
  rw [if_neg e4]
  by_cases e6 : p.isSynchronousRequest = false ∧ ntSuccess env.bufferPoolGetStatus = false
  · rw [if_pos e6]
    exact ⟨Or.inl ⟨by simp [apply_ite Prod.fst, apply_ite ModuleState.counter],
      by simp [apply_ite Prod.fst, apply_ite ModuleState.issuedTokens]⟩,
      by simp [apply_ite Prod.fst, apply_ite ModuleState.pendingReuseRequests]⟩
  rw [if_neg e6]
  by_cases ew : p.isSynchronousRequest = false ∧ p.wantCancel = true
  · by_cases e7 : p.isSynchronousRequest = false ∧ p.wantCancel = true ∧
        ntSuccess env.collectionAddStatus = false
    · rw [if_pos e7]
      exact ⟨Or.inr ⟨by simp [ew.1, ew.2, apply_ite Prod.fst, apply_ite ModuleState.counter],
        by simp [ew.1, ew.2, apply_ite Prod.fst, apply_ite ModuleState.counter,
          apply_ite ModuleState.issuedTokens]⟩,
        by simp [ew.1, ew.2, apply_ite Prod.fst, apply_ite ModuleState.pendingReuseRequests]⟩
    rw [if_neg e7]
    by_cases e8 : ntSuccess env.timerAllocStatus = false
    · rw [if_pos e8]
      exact ⟨Or.inr ⟨by simp [ew.1, ew.2, apply_ite Prod.fst, apply_ite ModuleState.counter],
        by simp [ew.1, ew.2, apply_ite Prod.fst, apply_ite ModuleState.counter,
          apply_ite ModuleState.issuedTokens]⟩,
        by simp [ew.1, ew.2, apply_ite Prod.fst, apply_ite ModuleState.pendingReuseRequests]⟩
    rw [if_neg e8]
    by_cases e9 : env.wdfRequestSendOk = false ∨ p.isSynchronousRequest = true
    · rw [if_pos e9]
      by_cases e10 : ntSuccess env.requestStatusAfter = false
      · rw [if_pos e10]
        exact ⟨Or.inr ⟨by simp [ew.1, ew.2, apply_ite Prod.fst, apply_ite ModuleState.counter],
          by simp [ew.1, ew.2, apply_ite Prod.fst, apply_ite ModuleState.counter,
            apply_ite ModuleState.issuedTokens]⟩,
          by simp [ew.1, ew.2, apply_ite Prod.fst, apply_ite ModuleState.pendingReuseRequests]⟩
      · rw [if_neg e10]
        exact ⟨Or.inr ⟨by simp [ew.1, ew.2, apply_ite Prod.fst, apply_ite ModuleState.counter],
          by simp [ew.1, ew.2, apply_ite Prod.fst, apply_ite ModuleState.counter,
            apply_ite ModuleState.issuedTokens]⟩,
          by simp [ew.1, ew.2, apply_ite Prod.fst, apply_ite ModuleState.pendingReuseRequests]⟩
    · rw [if_neg e9]
      exact ⟨Or.inr ⟨by simp [ew.1, ew.2, apply_ite Prod.fst, apply_ite ModuleState.counter],
        by simp [ew.1, ew.2, apply_ite Prod.fst, apply_ite ModuleState.counter,
          apply_ite ModuleState.issuedTokens]⟩,
        by simp [ew.1, ew.2, apply_ite Prod.fst, apply_ite ModuleState.pendingReuseRequests]⟩
  · have e7 : ¬(p.isSynchronousRequest = false ∧ p.wantCancel = true ∧
        ntSuccess env.collectionAddStatus = false) := by tauto
    rw [if_neg e7]
    by_cases e8 : ntSuccess env.timerAllocStatus = false
    · rw [if_pos e8]
      exact ⟨Or.inl ⟨by simp [ew, apply_ite Prod.fst, apply_ite ModuleState.counter],
        by simp [ew, apply_ite Prod.fst, apply_ite ModuleState.issuedTokens]⟩,
        by simp [ew, apply_ite Prod.fst, apply_ite ModuleState.pendingReuseRequests]⟩
    rw [if_neg e8]
    by_cases e9 : env.wdfRequestSendOk = false ∨ p.isSynchronousRequest = true
    · rw [if_pos e9]
      by_cases e10 : ntSuccess env.requestStatusAfter = false
      · rw [if_pos e10]
        exact ⟨Or.inl ⟨by simp [ew, apply_ite Prod.fst, apply_ite ModuleState.counter],
          by simp [ew, apply_ite Prod.fst, apply_ite ModuleState.issuedTokens]⟩,
          by simp [ew, apply_ite Prod.fst, apply_ite ModuleState.pendingReuseRequests]⟩
      · rw [if_neg e10]
        exact ⟨Or.inl ⟨by simp [ew, apply_ite Prod.fst, apply_ite ModuleState.counter],
          by simp [ew, apply_ite Prod.fst, apply_ite ModuleState.issuedTokens]⟩,
          by simp [ew, apply_ite Prod.fst, apply_ite ModuleState.pendingReuseRequests]⟩
    · rw [if_neg e9]
      exact ⟨Or.inl ⟨by simp [ew, apply_ite Prod.fst, apply_ite ModuleState.counter],
        by simp [ew, apply_ite Prod.fst, apply_ite ModuleState.issuedTokens]⟩,
        by simp [ew, apply_ite Prod.fst, apply_ite ModuleState.pendingReuseRequests]⟩

lemma reuseCreate_frame (s : ModuleState) (env : ReuseCreateEnv) :
    TokenStep s (reuseCreate s env).state ∧
    ((reuseCreate s env).state.pendingReuseRequests = s.pendingReuseRequests ∨
      ∃ id, (reuseCreate s env).state.pendingReuseRequests =
        s.pendingReuseRequests ++ [id]) := by
  unfold reuseCreate
  by_cases e1 : env.moduleReferenceOk = false
  · rw [if_pos e1]
    exact ⟨Or.inl ⟨rfl, rfl⟩, Or.inl rfl⟩
  rw [if_neg e1]
  by_cases e2 : ntSuccess env.wdfRequestCreateStatus = false
  · rw [if_pos e2]
    exact ⟨Or.inl ⟨rfl, rfl⟩, Or.inl rfl⟩
  rw [if_neg e2]
  dsimp only
  by_cases e3 : ntSuccess env.collectionAddStatus = false
  · rw [if_pos e3]
    exact ⟨Or.inr ⟨by simp, by simp⟩, Or.inl (by simp)⟩
  · rw [if_neg e3]
    exact ⟨Or.inr ⟨by simp, by simp⟩,
      Or.inr ⟨(createRequestObject s).2, by simp [reuseListAdd]⟩⟩

lemma cancelMethod_frame (s : ModuleState) (tok : Nat) (env : CancelEnv) :
    (cancelMethod s tok env).state.counter = s.counter ∧
    (cancelMethod s tok env).state.issuedTokens = s.issuedTokens ∧
    (cancelMethod s tok env).state.pendingReuseRequests = s.pendingReuseRequests := by
  have hc := pendingListSearchAndReference_counter s tok
  have hi := pendingListSearchAndReference_issuedTokens s tok
  have hpr := pendingListSearchAndReference_pendingReuse s tok
  unfold cancelMethod
  by_cases e1 : env.moduleReferenceOk = false
  · rw [if_pos e1]
    exact ⟨rfl, rfl, rfl⟩
  rw [if_neg e1]
  rcases hsr : pendingListSearchAndReference s tok with ⟨s1, found⟩
  rw [hsr] at hc hi hpr
  dsimp only at hc hi hpr
  cases found with
  | none => exact ⟨hc, hi, hpr⟩
  | some rid => exact ⟨by simp [hc], by simp [hi], by simp [hpr]⟩

lemma reuseDelete_frame (s : ModuleState) (tok : Nat) :
    (reuseDelete s tok).state.counter = s.counter ∧
    (reuseDelete s tok).state.issuedTokens = s.issuedTokens := by
  have hc := reuseListSearch_counter s tok
  have hi := reuseListSearch_issuedTokens s tok
  unfold reuseDelete
  rcases hsr : reuseListSearch s tok with ⟨s1, found⟩
  rw [hsr] at hc hi
  dsimp only at hc hi
  cases found with
  | none => exact ⟨hc, hi⟩
  | some rid => exact ⟨by simp [hc], by simp [hi]⟩

lemma processRoot_frame (s : ModuleState) (rid : Nat) (rt : RequestType)
    (env : CompletionEnv) (reuse : Bool) :
    (processAsynchronousRequestRoot s rid rt env reuse).state.counter = s.counter ∧
    (processAsynchronousRequestRoot s rid rt env reuse).state.issuedTokens =
      s.issuedTokens ∧
    (processAsynchronousRequestRoot s rid rt env reuse).state.pendingReuseRequests =
      s.pendingReuseRequests := by
  unfold processAsynchronousRequestRoot
  cases reuse <;> exact ⟨by simp, by simp, by simp⟩

lemma applyOp_tokenStep (s : ModuleState) (op : Op) : TokenStep s (applyOp s op) := by
  cases op with
  | createAndSendOp p env => exact (requestCreateAndSend_frame s p env).1
  | reuseCreateOp env => exact (reuseCreate_frame s env).1
  | reuseSendOp tok p env => exact (requestSendReuse_frame s tok p env).1
  | reuseDeleteOp tok =>
      exact Or.inl ⟨(reuseDelete_frame s tok).1, (reuseDelete_frame s tok).2⟩
  | cancelOp tok env =>
      exact Or.inl ⟨(cancelMethod_frame s tok env).1, (cancelMethod_frame s tok env).2.1⟩
  | completeOp r rt env reuse =>
      exact Or.inl ⟨(processRoot_frame s r rt env reuse).1,
        (processRoot_frame s r rt env reuse).2.1⟩

lemma applyOp_reuseSet (s : ModuleState) (op : Op) :
    (applyOp s op).pendingReuseRequests = s.pendingReuseRequests ∨
    (∃ id, (applyOp s op).pendingReuseRequests = s.pendingReuseRequests ++ [id]) ∨
    (∃ tok, op = Op.reuseDeleteOp tok) := by
  cases op with
  | createAndSendOp p env => exact Or.inl (requestCreateAndSend_frame s p env).2
  | reuseCreateOp env =>
      rcases (reuseCreate_frame s env).2 with h | h
      · exact Or.inl h
      · exact Or.inr (Or.inl h)
  | reuseSendOp tok p env => exact Or.inl (requestSendReuse_frame s tok p env).2
  | reuseDeleteOp tok => exact Or.inr (Or.inr ⟨tok, rfl⟩)
  | cancelOp tok env => exact Or.inl (cancelMethod_frame s tok env).2.2
  | completeOp r rt env reuse => exact Or.inl (processRoot_frame s r rt env reuse).2.2

/-! ## Token-counter invariant -/

lemma tokenInv_initial : TokenInv initialState := by
  constructor <;> simp [TokenInv, initialState, tokenHistory]

lemma tokenHistory_succ (n : Nat) :
    tokenHistory (n + 1) = (n + 1) % UINT64MOD :: tokenHistory n := by
  simp [tokenHistory, List.range_succ]

lemma tokenStep_inv {s t : ModuleState} (h : TokenInv s) (hst : TokenStep s t) :
    TokenInv t := by
  obtain ⟨h1, h2⟩ := h
  rcases hst with ⟨hc, hi⟩ | ⟨hc, hi⟩
  · exact ⟨by rw [hc, hi]; exact h1, by rw [hi]; exact h2⟩
  · constructor
    · rw [hc, hi, List.length_cons, h1, Nat.mod_add_mod]
    · rw [hi, List.length_cons, tokenHistory_succ]
      congr 1
      rw [h1, Nat.mod_add_mod]

lemma runOps_tokenInv (ops : List Op) : ∀ s, TokenInv s → TokenInv (runOps s ops) := by
  induction ops with
  | nil => exact fun s h => h
  | cons op rest ih =>
      exact fun s h => ih _ (tokenStep_inv h (applyOp_tokenStep s op))

lemma tokenHistory_nodup {n : Nat} (h : n ≤ UINT64MOD) : (tokenHistory n).Nodup := by
  unfold tokenHistory
  rw [List.nodup_reverse]
  apply List.Nodup.map_on ?_ (List.nodup_range n)
  intro i hi j hj hij
  rw [List.mem_range] at hi hj
  have hiM : i + 1 ≤ UINT64MOD := by omega
  have hjM : j + 1 ≤ UINT64MOD := by omega
  rcases lt_or_eq_of_le hiM with hi2 | hi2 <;> rcases lt_or_eq_of_le hjM with hj2 | hj2
  · rw [Nat.mod_eq_of_lt hi2, Nat.mod_eq_of_lt hj2] at hij
    omega
  · rw [Nat.mod_eq_of_lt hi2, hj2, Nat.mod_self] at hij
    omega
  · rw [hi2, Nat.mod_self, Nat.mod_eq_of_lt hj2] at hij
    omega
  · omega

/-! ## Behavior lemmas for the reuse-send path -/

lemma requestSendReuse_allOk_sends (s s1 : ModuleState) (tok rid : Nat) (p : SendParams)
    (hasync : p.isSynchronousRequest = false)
    (hopt : p.completionOption ≠ CompletionOptions.dfault)
    (hfound : reuseListSearch s tok = (s1, some rid)) :
    (requestSendReuse s tok p allOkSendEnv).sentToTarget = true ∧
    (requestSendReuse s tok p allOkSendEnv).status = .success := by
  unfold requestSendReuse
  rw [hfound]
  dsimp only
  simp [allOkSendEnv, ntSuccess, hasync, hopt]

set_option maxHeartbeats 2000000 in
lemma requestSendReuse_failure_clears (s : ModuleState) (tok : Nat) (p : SendParams)
    (env : SendEnv) (s1 : ModuleState) (rid : Nat)
    (hasync : p.isSynchronousRequest = false)
    (hfound : reuseListSearch s tok = (s1, some rid))
    (hfail : ntSuccess (requestSendReuse s tok p env).status = false) :
    (getObject (requestSendReuse s tok p env).state rid).map
      (fun o => o.ctx.requestInUse) = some false := by
  obtain ⟨hmem, o0, ho0, htok, hniu, hs1⟩ := reuseListSearch_eq_some hfound
  have hbeq := getObject_id_beq ho0
  have hid : o0.id = rid := by simpa using hbeq
  have hgs1 : getObject s1 rid =
      some { o0 with ctx := { o0.ctx with requestInUse := true } } := by
    rw [hs1]
    exact getObject_setCtx_self _ ho0
  unfold requestSendReuse at hfail ⊢
  rw [hfound] at hfail ⊢
  dsimp only at hfail ⊢
  by_cases e1 : ntSuccess env.wdfRequestReuseStatus = false
  · rw [if_pos e1]
    simp [getObject_setCtx, hgs1, hbeq, hid, hid]
  rw [if_neg e1] at hfail ⊢
  by_cases e2 : 0 < p.requestLength ∧ ntSuccess env.memoryCreateRequestStatus = false
  · rw [if_pos e2]
    simp [getObject_setCtx, hgs1, hbeq, hid, hid]
  rw [if_neg e2] at hfail ⊢
  by_cases e3 : 0 < p.responseLength ∧ ntSuccess env.memoryCreateResponseStatus = false
  · rw [if_pos e3]
    simp [getObject_setCtx, hgs1, hbeq, hid, apply_ite Prod.fst,
      apply_ite (fun st => getObject st rid)]
  rw [if_neg e3] at hfail ⊢
  by_cases e4 : ntSuccess env.formatStatus = false
  · rw [if_pos e4]
    simp [getObject_setCtx, hgs1, hbeq, hid, apply_ite Prod.fst,
      apply_ite (fun st => getObject st rid)]
  rw [if_neg e4] at hfail ⊢
  by_cases e5 : p.isSynchronousRequest = false ∧ p.completionOption = .dfault
  · rw [if_pos e5]
    simp [getObject_setCtx, hgs1, hbeq, hid, apply_ite Prod.fst,
      apply_ite (fun st => getObject st rid)]
  rw [if_neg e5] at hfail ⊢
  by_cases e6 : p.isSynchronousRequest = false ∧ ntSuccess env.bufferPoolGetStatus = false
  · rw [if_pos e6]
    simp [getObject_setCtx, hgs1, hbeq, hid, apply_ite Prod.fst,
      apply_ite (fun st => getObject st rid)]
  rw [if_neg e6] at hfail ⊢
  by_cases ew : p.isSynchronousRequest = false ∧ p.wantCancel = true
  · by_cases e7 : p.isSynchronousRequest = false ∧ p.wantCancel = true ∧
        ntSuccess env.collectionAddStatus = false
    · rw [if_pos e7]
      simp [getObject_setCtx, hgs1, hbeq, hid, ew.1, ew.2, apply_ite Prod.fst,
        apply_ite (fun st => getObject st rid)]
    rw [if_neg e7] at hfail ⊢
    by_cases e8 : ntSuccess env.timerAllocStatus = false
    · rw [if_pos e8]
      simp [getObject_setCtx, hgs1, hbeq, hid, ew.1, ew.2, apply_ite Prod.fst,
        apply_ite (fun st => getObject st rid)]
    rw [if_neg e8] at hfail ⊢
    by_cases e9 : env.wdfRequestSendOk = false ∨ p.isSynchronousRequest = true
    · rw [if_pos e9] at hfail ⊢
      have hsend : env.wdfRequestSendOk = false := by
        rcases e9 with h | h
        · exact h
        · rw [hasync] at h
          cases h
      by_cases e10 : ntSuccess env.requestStatusAfter = false
      · rw [if_pos e10]
        simp [getObject_setCtx, hgs1, hbeq, hid, ew.1, ew.2, hsend, apply_ite Prod.fst,
          apply_ite (fun st => getObject st rid)]
      · rw [if_neg e10] at hfail
        dsimp only at hfail
        exact absurd hfail e10
    · rw [if_neg e9] at hfail
      dsimp only at hfail
      simp [ntSuccess] at hfail
  · have hw : p.wantCancel = false := by
      rcases Bool.eq_false_or_eq_true p.wantCancel with h | h
      · exact absurd ⟨hasync, h⟩ ew
      · exact h
    have e7 : ¬(p.isSynchronousRequest = false ∧ p.wantCancel = true ∧
        ntSuccess env.collectionAddStatus = false) := by tauto
    rw [if_neg e7] at hfail ⊢
    by_cases e8 : ntSuccess env.timerAllocStatus = false
    · rw [if_pos e8]
      simp [getObject_setCtx, hgs1, hbeq, hid, hw, hasync, apply_ite Prod.fst,
        apply_ite (fun st => getObject st rid)]
    rw [if_neg e8] at hfail ⊢
    by_cases e9 : env.wdfRequestSendOk = false ∨ p.isSynchronousRequest = true
    · rw [if_pos e9] at hfail ⊢
      have hsend : env.wdfRequestSendOk = false := by
        rcases e9 with h | h
        · exact h
        · rw [hasync] at h
          cases h
      by_cases e10 : ntSuccess env.requestStatusAfter = false
      · rw [if_pos e10]
        simp [getObject_setCtx, hgs1, hbeq, hid, hw, hasync, hsend, apply_ite Prod.fst,
          apply_ite (fun st => getObject st rid), apply_ite (fun st => getObject st rid)]
      · rw [if_neg e10] at hfail
        dsimp only at hfail
        exact absurd hfail e10
    · rw [if_neg e9] at hfail
      dsimp only at hfail
      simp [ntSuccess] at hfail

/-! ## Close-loop lemmas -/

lemma closeDrainLoop_spec {obs : Nat → Nat} :
    ∀ {fuel k j : Nat}, closeDrainLoop obs fuel k = some j →
      obs j = 0 ∧ k ≤ j ∧ ∀ i, k ≤ i → i < j → obs i ≠ 0 := by
  intro fuel
  induction fuel with
  | zero =>
      intro k j h
      simp [closeDrainLoop] at h
  | succ n ih =>
      intro k j h
      unfold closeDrainLoop at h
      by_cases h0 : obs k = 0
      · rw [if_pos h0] at h
        cases h
        exact ⟨h0, le_refl _,
          fun i h1 h2 => (Nat.lt_irrefl k (Nat.lt_of_le_of_lt h1 h2)).elim⟩
      · rw [if_neg h0] at h
        obtain ⟨hj, hkj, hmid⟩ := ih h
        refine ⟨hj, by omega, fun i hki hij => ?_⟩
        rcases eq_or_lt_of_le hki with rfl | hlt
        · exact h0
        · exact hmid i (by omega) hij

/-! ## Reuse-delete and cancel behavior -/

lemma reuseDelete_found (s s1 : ModuleState) (tok rid : Nat)
    (hfound : reuseListSearch s tok = (s1, some rid))
    (hnodup : s.pendingReuseRequests.Nodup) :
    (reuseDelete s tok).returnValue = true ∧
    rid ∉ (reuseDelete s tok).state.pendingReuseRequests ∧
    getObject (reuseDelete s tok).state rid = none := by
  obtain ⟨hmem, o0, ho0, htok, hniu, hs1⟩ := reuseListSearch_eq_some hfound
  unfold reuseDelete
  rw [hfound]
  dsimp only
  refine ⟨rfl, ?_, ?_⟩
  · simp only [dereferenceObject_pendingReuse, deleteRequestObject_pendingReuse]
    rw [show (reuseListRemove s1 rid).pendingReuseRequests =
        (listSearchAndRemove rid s1.pendingReuseRequests).1 from rfl]
    rw [listSearchAndRemove_eq_erase, hs1]
    simp only [setCtx_pendingReuse]
    exact List.Nodup.not_mem_erase hnodup
  · rw [getObject_dereferenceObject, getObject_deleteRequestObject_self]
    rfl

lemma reuseDelete_notFound (s : ModuleState) (tok : Nat)
    (h : ∀ id ∈ s.pendingReuseRequests, ∀ o, getObject s id = some o →
        o.ctx.uniqueRequestIdReuse = tok → o.ctx.requestInUse = true) :
    reuseDelete s tok = { returnValue := false, state := s } := by
  unfold reuseDelete
  rw [show reuseListSearch s tok = (s, none) from reuseListSearch_none_of_inUse h]

lemma cancelMethod_notFound (s : ModuleState) (tok : Nat) (env : CancelEnv)
    (h : ∀ id ∈ s.pendingAsynchronousRequests, ∀ o, getObject s id = some o →
        o.ctx.uniqueRequestIdCancel ≠ tok) :
    cancelMethod s tok env = { returnValue := false, state := s } := by
  unfold cancelMethod
  by_cases e1 : env.moduleReferenceOk = false
  · rw [if_pos e1]
  · rw [if_neg e1]
    unfold pendingListSearchAndReference
    rw [cancelListSearchGo_none_of_absent h]

lemma cancelMethod_found (s s1 : ModuleState) (tok rid : Nat) (env : CancelEnv)
    (href : env.moduleReferenceOk = true)
    (hfound : pendingListSearchAndReference s tok = (s1, some rid)) :
    (cancelMethod s tok env).returnValue = env.wdfRequestCancelSentRequestResult := by
  unfold cancelMethod
  rw [if_neg (by simp [href]), hfound]

/-! ## Completion-dispatch behavior -/

lemma processRoot_spec (s : ModuleState) (rid : Nat) (rt : RequestType)
    (env : CompletionEnv) (o : RequestObject) (ho : getObject s rid = some o) :
    (env.hasCallback = true →
      (processAsynchronousRequestRoot s rid rt env true).events =
        [CompletionEvent.removedFromPending
            (listSearchAndRemove rid s.pendingAsynchronousRequests).2,
         CompletionEvent.clearedInUse,
         CompletionEvent.clientCallbackInvoked
           (completionParamsInputBufferAndOutputBufferGet env.completionParams
             rt).inputBuffer
           (completionParamsInputBufferAndOutputBufferGet env.completionParams
             rt).inputBufferSize
           (completionParamsInputBufferAndOutputBufferGet env.completionParams
             rt).outputBuffer
           (completionParamsInputBufferAndOutputBufferGet env.completionParams
             rt).outputBufferSize
           env.requestStatus,
         CompletionEvent.bufferPoolPut,
         CompletionEvent.moduleDereferenced]) ∧
    getObject (processAsynchronousRequestRoot s rid rt env true).callbackPointState rid =
      some { o with ctx := { o.ctx with requestInUse := false } } ∧
    getObject (processAsynchronousRequestRoot s rid rt env true).state rid =
      some { o with ctx := { o.ctx with requestInUse := false } } ∧
    getObject (processAsynchronousRequestRoot s rid rt env false).state rid = none := by
  have hset : getObject (setCtx (pendingListRemove s rid) rid
      (fun c => { c with requestInUse := false })) rid =
      some { o with ctx := { o.ctx with requestInUse := false } } := by
    exact getObject_setCtx_self _ (by rw [getObject_pendingListRemove]; exact ho)
  refine ⟨fun hcb => ?_, ?_, ?_, ?_⟩
  · unfold processAsynchronousRequestRoot
    simp [hcb]
  · unfold processAsynchronousRequestRoot
    dsimp only
    rw [if_pos rfl]
    exact hset
  · unfold processAsynchronousRequestRoot
    dsimp only
    rw [if_pos rfl, if_pos rfl]
    rw [getObject_bufferPoolPut]
    exact hset
  · unfold processAsynchronousRequestRoot
    dsimp only
    rw [if_neg (by simp), if_neg (by simp)]
    exact getObject_deleteRequestObject_self _ _

/-! ## Bridges from the decidable hypothesis predicates -/

lemma allReuseHoldersInUse_getObject {s : ModuleState} {tok : Nat}
    (h : AllReuseHoldersInUse s tok) :
    ∀ id ∈ s.pendingReuseRequests, ∀ o, getObject s id = some o →
      o.ctx.uniqueRequestIdReuse = tok → o.ctx.requestInUse = true := by
  intro id hid o ho
  unfold getObject at ho
  exact h id hid o (List.mem_of_find?_eq_some ho) (by simpa using List.find?_some ho)

lemma cancelIdAbsent_getObject {s : ModuleState} {tok : Nat}
    (h : CancelIdAbsent s tok) :
    ∀ id ∈ s.pendingAsynchronousRequests, ∀ o, getObject s id = some o →
      o.ctx.uniqueRequestIdCancel ≠ tok := by
  intro id hid o ho
  unfold getObject at ho
  exact h id hid o (List.mem_of_find?_eq_some ho) (by simpa using List.find?_some ho)

/-! ## The claims -/

/-- Claim C1: over every sequence of modeled operations (create-and-send with
a cancel id requested, reuse-create, reuse-send, in any interleaving with
deletes, cancels and completions), all cancel ids and reuse ids ever drawn
from the single process-wide counter by InterlockedIncrement64 are pairwise
distinct, and a value issued once is never issued again — for as long as
fewer than 2^64 values have been drawn, which is the spec's own stipulation
that the 64-bit counter never wraps within a process lifetime. -/
theorem claim1_tokens_pairwise_distinct (ops : List Op)
    (h : (runOps initialState ops).issuedTokens.length ≤ UINT64MOD) :
    (runOps initialState ops).issuedTokens.Nodup := by
  have inv := runOps_tokenInv ops initialState tokenInv_initial
  rw [inv.2]
  exact tokenHistory_nodup h

/-- Concrete run for claim C1: reuse-create, reuse-create, delete the first
slot, reuse-create again; the issued ids 1, 2, 3 are pairwise distinct even
though the first operation was destroyed in between. -/
theorem claim1_tokens_pairwise_distinct_witness :
    ((runOps initialState [Op.reuseCreateOp exampleReuseCreateEnv,
        Op.reuseCreateOp exampleReuseCreateEnv, Op.reuseDeleteOp 1,
        Op.reuseCreateOp exampleReuseCreateEnv]).issuedTokens.length ≤ UINT64MOD) ∧
    (runOps initialState [Op.reuseCreateOp exampleReuseCreateEnv,
        Op.reuseCreateOp exampleReuseCreateEnv, Op.reuseDeleteOp 1,
        Op.reuseCreateOp exampleReuseCreateEnv]).issuedTokens.Nodup :=
  ⟨by decide, claim1_tokens_pairwise_distinct _ (by decide)⟩

/-- Claim C2 (amended): a reuse-send against a token whose slot is in use
fails — returning STATUS_OBJECTID_NOT_FOUND, the same status as for an
unknown token, rather than a distinct protocol-violation status — and does
not re-arm, format or send the operation and leaves every bit of manager
state unchanged; a reuse-send whose token is found with inUse = false has
its lookup set inUse = true and, with every external call succeeding,
proceeds to hand the request to the target. -/
theorem claim2_reuse_exclusivity :
    (∀ (s : ModuleState) (tok : Nat) (p : SendParams) (env : SendEnv),
      AllReuseHoldersInUse s tok →
      requestSendReuse s tok p env =
        { status := .objectIdNotFound, state := s, rearmed := false,
          formatted := false, sentToTarget := false,
          dmfRequestIdCancelOut := none, bytesWritten := 0 }) ∧
    (∀ (s s1 : ModuleState) (tok rid : Nat) (p : SendParams),
      p.isSynchronousRequest = false →
      p.completionOption ≠ CompletionOptions.dfault →
      reuseListSearch s tok = (s1, some rid) →
      s1 = setCtx s rid (fun c => { c with requestInUse := true }) ∧
      (∃ o, getObject s rid = some o ∧ o.ctx.requestInUse = false ∧
        o.ctx.uniqueRequestIdReuse = tok) ∧
      (requestSendReuse s tok p allOkSendEnv).sentToTarget = true) := by
  constructor
  · intro s tok p env hniu
    unfold requestSendReuse
    rw [show reuseListSearch s tok = (s, none) from
      reuseListSearch_none_of_inUse (allReuseHoldersInUse_getObject hniu)]
    rfl
  · intro s s1 tok rid p hasync hopt hfound
    obtain ⟨hmem, o0, ho0, htok, hniu, hs1⟩ := reuseListSearch_eq_some hfound
    exact ⟨hs1, ⟨o0, ho0, hniu, htok⟩,
      (requestSendReuse_allOk_sends s s1 tok rid p hasync hopt hfound).1⟩

/-- Concrete instance for claim C2: a send against the in-use slot of token 1
is rejected with no state change; a send against the same slot while free is
handed to the target. -/
theorem claim2_reuse_exclusivity_witness :
    requestSendReuse exampleInUseState 1 exampleAsyncSendParams allOkSendEnv =
      { status := .objectIdNotFound, state := exampleInUseState, rearmed := false,
        formatted := false, sentToTarget := false, dmfRequestIdCancelOut := none,
        bytesWritten := 0 } ∧
    (requestSendReuse exampleReuseState 1 exampleAsyncSendParams
      allOkSendEnv).sentToTarget = true :=
  ⟨claim2_reuse_exclusivity.1 exampleInUseState 1 exampleAsyncSendParams allOkSendEnv
      (by decide),
    (claim2_reuse_exclusivity.2 exampleReuseState
      (setCtx exampleReuseState 1 (fun c => { c with requestInUse := true })) 1 1
      exampleAsyncSendParams rfl (by decide) (by decide)).2.2⟩

/-- Claim C2 counterexample: at a concrete manager whose only reuse slot
(token 1) is in use, reuse-send returns STATUS_OBJECTID_NOT_FOUND — exactly
the status it returns for a token (5) that was never issued — so the in-use
rejection is reported as not-found, not as a distinct ProtocolViolation
error as the spec's error taxonomy requires. -/
theorem claim2_counterexample :
    (requestSendReuse exampleInUseState 1 exampleAsyncSendParams allOkSendEnv).status =
      NtStatus.objectIdNotFound ∧
    (requestSendReuse exampleInUseState 5 exampleAsyncSendParams allOkSendEnv).status =
      NtStatus.objectIdNotFound ∧
    (∀ o ∈ exampleInUseState.objects, o.ctx.uniqueRequestIdReuse ≠ 5) := by
  decide

/-- Claim C3: a cancel whose id is not carried by any pending operation
(already completed and removed, never issued, or the null id 0) returns
false and leaves the manager state exactly as it was; a cancel whose id is
found returns precisely the target's answer to
WdfRequestCancelSentRequest. -/
theorem claim3_cancel_semantics :
    (∀ (s : ModuleState) (tok : Nat) (env : CancelEnv),
      CancelIdAbsent s tok →
      cancelMethod s tok env = { returnValue := false, state := s }) ∧
    (∀ (s s1 : ModuleState) (tok rid : Nat) (env : CancelEnv),
      env.moduleReferenceOk = true →
      pendingListSearchAndReference s tok = (s1, some rid) →
      (cancelMethod s tok env).returnValue =
        env.wdfRequestCancelSentRequestResult) :=
  ⟨fun s tok env h => cancelMethod_notFound s tok env (cancelIdAbsent_getObject h),
   fun s s1 tok rid env href hfound => cancelMethod_found s s1 tok rid env href hfound⟩

/-- Concrete instance for claim C3: cancel of the never-issued id 99 and of
the null id 0 return false with the state unchanged; cancel of the live id 2
returns the target's answer (true here). -/
theorem claim3_cancel_semantics_witness :
    cancelMethod exampleInUseState 99
        { moduleReferenceOk := true, wdfRequestCancelSentRequestResult := true } =
      { returnValue := false, state := exampleInUseState } ∧
    cancelMethod exampleInUseState 0
        { moduleReferenceOk := true, wdfRequestCancelSentRequestResult := true } =
      { returnValue := false, state := exampleInUseState } ∧
    (cancelMethod exampleInUseState 2
        { moduleReferenceOk := true, wdfRequestCancelSentRequestResult := true
          }).returnValue = true :=
  ⟨claim3_cancel_semantics.1 exampleInUseState 99 _ (by decide),
   claim3_cancel_semantics.1 exampleInUseState 0 _ (by decide),
   claim3_cancel_semantics.2 exampleInUseState (referenceObject exampleInUseState 1) 2 1
     _ rfl (by decide)⟩

/-- Claim C4: in the completion dispatch of a reuse operation, the event
trace clears the slot's inUse flag strictly before the client callback is
invoked, and the module state in which the callback runs already shows the
slot with inUse = false (so the callback may immediately re-send the same
reuse token). -/
theorem claim4_inUse_cleared_before_callback (s : ModuleState) (rid : Nat)
    (rt : RequestType) (env : CompletionEnv) (o : RequestObject)
    (ho : getObject s rid = some o) (hcb : env.hasCallback = true) :
    (processAsynchronousRequestRoot s rid rt env true).events =
      [CompletionEvent.removedFromPending
          (listSearchAndRemove rid s.pendingAsynchronousRequests).2,
       CompletionEvent.clearedInUse,
       CompletionEvent.clientCallbackInvoked
         (completionParamsInputBufferAndOutputBufferGet env.completionParams
           rt).inputBuffer
         (completionParamsInputBufferAndOutputBufferGet env.completionParams
           rt).inputBufferSize
         (completionParamsInputBufferAndOutputBufferGet env.completionParams
           rt).outputBuffer
         (completionParamsInputBufferAndOutputBufferGet env.completionParams
           rt).outputBufferSize
         env.requestStatus,
       CompletionEvent.bufferPoolPut,
       CompletionEvent.moduleDereferenced] ∧
    getObject (processAsynchronousRequestRoot s rid rt env true).callbackPointState
        rid = some { o with ctx := { o.ctx with requestInUse := false } } :=
  ⟨(processRoot_spec s rid rt env o ho).1 hcb,
   (processRoot_spec s rid rt env o ho).2.1⟩

/-- Concrete instance for claim C4: completing the in-use reuse slot clears
inUse before the callback fires with the device-control buffers. -/
theorem claim4_inUse_cleared_before_callback_witness :
    (processAsynchronousRequestRoot exampleInUseState 1 RequestType.ioctl
        exampleCompletionEnv true).events =
      [CompletionEvent.removedFromPending true,
       CompletionEvent.clearedInUse,
       CompletionEvent.clientCallbackInvoked (some 7) 16 (some 8) 20 NtStatus.success,
       CompletionEvent.bufferPoolPut,
       CompletionEvent.moduleDereferenced] ∧
    getObject (processAsynchronousRequestRoot exampleInUseState 1 RequestType.ioctl
        exampleCompletionEnv true).callbackPointState 1 =
      some { id := 1,
             ctx := { uniqueRequestIdCancel := 2, uniqueRequestIdReuse := 1,
                      requestInUse := false },
             refCount := 1 } :=
  claim4_inUse_cleared_before_callback exampleInUseState 1 RequestType.ioctl
    exampleCompletionEnv
    { id := 1,
      ctx := { uniqueRequestIdCancel := 2, uniqueRequestIdReuse := 1,
               requestInUse := true },
      refCount := 1 }
    (by decide) rfl

/-- Claim C5: buffer extraction is determined by the request kind — read
yields only an output buffer with the reported length taken from the read
result (input null and zero); write yields only an input buffer with the
reported length taken from the write result (output null and zero);
device-control and internal-device-control yield both buffers, with the
reported output length equal to the bytes the target actually returned and
different from the output buffer's nominal capacity whenever the two
differ. -/
theorem claim5_buffer_extraction (params : CompletionParams) :
    ((completionParamsInputBufferAndOutputBufferGet params .read).inputBuffer = none ∧
     (completionParamsInputBufferAndOutputBufferGet params .read).inputBufferSize = 0 ∧
     (completionParamsInputBufferAndOutputBufferGet params .read).outputBuffer =
       params.readBuffer.map (fun m => m.ptrId) ∧
     (completionParamsInputBufferAndOutputBufferGet params .read).outputBufferSize =
       params.readLength) ∧
    ((completionParamsInputBufferAndOutputBufferGet params .write).outputBuffer = none ∧
     (completionParamsInputBufferAndOutputBufferGet params .write).outputBufferSize = 0 ∧
     (completionParamsInputBufferAndOutputBufferGet params .write).inputBuffer =
       params.writeBuffer.map (fun m => m.ptrId) ∧
     (completionParamsInputBufferAndOutputBufferGet params .write).inputBufferSize =
       params.writeLength) ∧
    (∀ rt, rt = RequestType.ioctl ∨ rt = RequestType.internalIoctl →
      ∀ mi mo, params.ioctlInputBuffer = some mi → params.ioctlOutputBuffer = some mo →
        (completionParamsInputBufferAndOutputBufferGet params rt).inputBuffer =
          some mi.ptrId ∧
        (completionParamsInputBufferAndOutputBufferGet params rt).inputBufferSize =
          mi.size ∧
        (completionParamsInputBufferAndOutputBufferGet params rt).outputBuffer =
          some mo.ptrId ∧
        (completionParamsInputBufferAndOutputBufferGet params rt).outputBufferSize =
          params.ioctlOutputLength ∧
        (params.ioctlOutputLength ≠ mo.size →
          (completionParamsInputBufferAndOutputBufferGet params rt).outputBufferSize ≠
            mo.size)) := by
  refine ⟨⟨rfl, rfl, rfl, rfl⟩, ⟨rfl, rfl, rfl, rfl⟩, ?_⟩
  rintro rt (rfl | rfl) mi mo hmi hmo <;>
    simp [completionParamsInputBufferAndOutputBufferGet, hmi, hmo]

/-- Concrete instance for claim C5: a device-control completion with a
16-byte input, a 32-byte output capacity and 20 bytes actually returned
reports input (7, 16) and output (8, 20) — 20, never the capacity 32. -/
theorem claim5_buffer_extraction_witness :
    (completionParamsInputBufferAndOutputBufferGet
        exampleCompletionEnv.completionParams .ioctl).inputBuffer = some 7 ∧
    (completionParamsInputBufferAndOutputBufferGet
        exampleCompletionEnv.completionParams .ioctl).inputBufferSize = 16 ∧
    (completionParamsInputBufferAndOutputBufferGet
        exampleCompletionEnv.completionParams .ioctl).outputBuffer = some 8 ∧
    (completionParamsInputBufferAndOutputBufferGet
        exampleCompletionEnv.completionParams .ioctl).outputBufferSize = 20 ∧
    (completionParamsInputBufferAndOutputBufferGet
        exampleCompletionEnv.completionParams .ioctl).outputBufferSize ≠ 32 := by
  have h := (claim5_buffer_extraction exampleCompletionEnv.completionParams).2.2
    RequestType.ioctl (Or.inl rfl) { ptrId := 7, size := 16 } { ptrId := 8, size := 32 }
    rfl rfl
  exact ⟨h.1, h.2.1, h.2.2.1, h.2.2.2.1, h.2.2.2.2 (by decide)⟩

/-- Claim C6: completion never removes an operation from the ReuseSet — the
reuse collection is unchanged by every completion; completion destroys the
operation exactly when it is not reusable (a reuse slot survives with its
inUse flag cleared, a one-shot request object is deleted); and across every
modeled operation of the manager, the only operation that removes an
identity from the ReuseSet is the explicit reuse-delete Method. -/
theorem claim6_reuseSet_removal_only_by_delete :
    (∀ (s : ModuleState) (rid : Nat) (rt : RequestType) (env : CompletionEnv)
        (reuse : Bool),
      (processAsynchronousRequestRoot s rid rt env reuse).state.pendingReuseRequests =
        s.pendingReuseRequests) ∧
    (∀ (s : ModuleState) (rid : Nat) (rt : RequestType) (env : CompletionEnv)
        (o : RequestObject), getObject s rid = some o →
      getObject (processAsynchronousRequestRoot s rid rt env true).state rid =
        some { o with ctx := { o.ctx with requestInUse := false } } ∧
      getObject (processAsynchronousRequestRoot s rid rt env false).state rid = none) ∧
    (∀ (s : ModuleState) (op : Op) (id : Nat),
      id ∈ s.pendingReuseRequests → id ∉ (applyOp s op).pendingReuseRequests →
      ∃ tok, op = Op.reuseDeleteOp tok) := by
  refine ⟨fun s rid rt env reuse => (processRoot_frame s rid rt env reuse).2.2,
    fun s rid rt env o ho => ⟨(processRoot_spec s rid rt env o ho).2.2.1,
      (processRoot_spec s rid rt env o ho).2.2.2⟩,
    fun s op id hin hout => ?_⟩
  rcases applyOp_reuseSet s op with h | ⟨nid, h⟩ | h
  · rw [h] at hout
    exact absurd hin hout
  · rw [h] at hout
    exact absurd (List.mem_append_left _ hin) hout
  · exact h

/-- Concrete instance for claim C6: completing the reuse slot keeps it in
the ReuseSet with inUse cleared, completing it as a one-shot would delete
the object, and the delete Method is a reuse-delete operation. -/
theorem claim6_reuseSet_removal_only_by_delete_witness :
    (processAsynchronousRequestRoot exampleInUseState 1 RequestType.ioctl
        exampleCompletionEnv true).state.pendingReuseRequests =
      exampleInUseState.pendingReuseRequests ∧
    getObject (processAsynchronousRequestRoot exampleInUseState 1 RequestType.ioctl
        exampleCompletionEnv true).state 1 =
      some { id := 1,
             ctx := { uniqueRequestIdCancel := 2, uniqueRequestIdReuse := 1,
                      requestInUse := false },
             refCount := 1 } ∧
    getObject (processAsynchronousRequestRoot exampleInUseState 1 RequestType.ioctl
        exampleCompletionEnv false).state 1 = none ∧
    (∃ tok, Op.reuseDeleteOp 1 = Op.reuseDeleteOp tok) :=
  ⟨claim6_reuseSet_removal_only_by_delete.1 exampleInUseState 1 RequestType.ioctl
      exampleCompletionEnv true,
    (claim6_reuseSet_removal_only_by_delete.2.1 exampleInUseState 1 RequestType.ioctl
      exampleCompletionEnv
      { id := 1,
        ctx := { uniqueRequestIdCancel := 2, uniqueRequestIdReuse := 1,
                 requestInUse := true },
        refCount := 1 } (by decide)).1,
    (claim6_reuseSet_removal_only_by_delete.2.1 exampleInUseState 1 RequestType.ioctl
      exampleCompletionEnv
      { id := 1,
        ctx := { uniqueRequestIdCancel := 2, uniqueRequestIdReuse := 1,
                 requestInUse := true },
        refCount := 1 } (by decide)).2,
    claim6_reuseSet_removal_only_by_delete.2.2 exampleReuseState (Op.reuseDeleteOp 1) 1
      (by decide) (by decide)⟩

/-- Claim C7 (amended): reuse-delete looks the slot up with the same search
the send path uses — the one that fails for an in-use slot and otherwise
marks it in-use; when the token is found with inUse = false it removes the
slot from the ReuseSet, destroys the request object and returns true; it
returns false, removing and destroying nothing, when the token is not found
in the ReuseSet or when the slot is currently in use. -/
theorem claim7_reuseDelete :
    (∀ (s s1 : ModuleState) (tok rid : Nat),
      reuseListSearch s tok = (s1, some rid) →
      s.pendingReuseRequests.Nodup →
      (reuseDelete s tok).returnValue = true ∧
      rid ∉ (reuseDelete s tok).state.pendingReuseRequests ∧
      getObject (reuseDelete s tok).state rid = none) ∧
    (∀ (s : ModuleState) (tok : Nat),
      AllReuseHoldersInUse s tok →
      reuseDelete s tok = { returnValue := false, state := s }) :=
  ⟨fun s s1 tok rid hfound hnodup => reuseDelete_found s s1 tok rid hfound hnodup,
   fun s tok h => reuseDelete_notFound s tok (allReuseHoldersInUse_getObject h)⟩

/-- Concrete instance for claim C7: deleting the free slot of token 1
removes and destroys it and returns true; deleting while the slot is in use
returns false and changes nothing. -/
theorem claim7_reuseDelete_witness :
    ((reuseDelete exampleReuseState 1).returnValue = true ∧
     1 ∉ (reuseDelete exampleReuseState 1).state.pendingReuseRequests ∧
     getObject (reuseDelete exampleReuseState 1).state 1 = none) ∧
    reuseDelete exampleInUseState 1 =
      { returnValue := false, state := exampleInUseState } :=
  ⟨claim7_reuseDelete.1 exampleReuseState
      (setCtx exampleReuseState 1 (fun c => { c with requestInUse := true })) 1 1
      (by decide) (by decide),
   claim7_reuseDelete.2 exampleInUseState 1 (by decide)⟩

/-- Claim C7 counterexample: in a concrete manager the reuse token 1 is in
the ReuseSet (its slot is live and currently in use); reuse-delete returns
false and removes nothing, although the claim states that a token found in
the ReuseSet is removed, destroyed, and true returned, with false reserved
for a token that is not in the ReuseSet. -/
theorem claim7_counterexample :
    getObject exampleInUseState 1 =
      some { id := 1,
             ctx := { uniqueRequestIdCancel := 2, uniqueRequestIdReuse := 1,
                      requestInUse := true },
             refCount := 1 } ∧
    1 ∈ exampleInUseState.pendingReuseRequests ∧
    (reuseDelete exampleInUseState 1).returnValue = false ∧
    (reuseDelete exampleInUseState 1).state = exampleInUseState := by
  decide

/-- Claim C8 evaluation at the failing input: after a failed WdfRequestSend
on the asynchronous paths, the wrapper memories are gone, the pending-set
registration is removed and (on the reuse path) the in-use mark is cleared —
but the completion context taken from the buffer pool with
DMF_BufferPool_Get is never returned with DMF_BufferPool_Put, so one pool
context is still outstanding when the call returns, on both the reuse-send
path and the create-and-send path. -/
theorem claim8_failed_send_leaks_pool_context :
    (ntSuccess (requestSendReuse exampleReuseState 1 exampleAsyncSendParams
        failedSendEnv).status = false ∧
     (requestSendReuse exampleReuseState 1 exampleAsyncSendParams
        failedSendEnv).state.liveMemories = [] ∧
     (requestSendReuse exampleReuseState 1 exampleAsyncSendParams
        failedSendEnv).state.pendingAsynchronousRequests = [] ∧
     (getObject (requestSendReuse exampleReuseState 1 exampleAsyncSendParams
        failedSendEnv).state 1).map (fun o => o.ctx.requestInUse) = some false ∧
     (requestSendReuse exampleReuseState 1 exampleAsyncSendParams
        failedSendEnv).state.poolOutstanding = 1) ∧
    (ntSuccess (requestCreateAndSend initialState exampleAsyncSendParams
        failedSendEnv).status = false ∧
     (requestCreateAndSend initialState exampleAsyncSendParams
        failedSendEnv).state.liveMemories = [] ∧
     (requestCreateAndSend initialState exampleAsyncSendParams
        failedSendEnv).state.objects = [] ∧
     (requestCreateAndSend initialState exampleAsyncSendParams
        failedSendEnv).state.pendingAsynchronousRequests = [] ∧
     (requestCreateAndSend initialState exampleAsyncSendParams
        failedSendEnv).state.poolOutstanding = 1) := by
  decide

/-- Claim C9: whenever Close returns, the poll at which each collection was
released observed it empty, and no earlier poll observed it empty — Close
does not release a collection while it still holds an operation but keeps
polling, sleeping 50 ms between reads, until the outstanding completions
and deletes have emptied it. -/
theorem claim9_close_drains (env : CloseEnv) (fuel k1 k2 : Nat)
    (h : closeModule env fuel = some (k1, k2)) :
    env.pendingObs k1 = 0 ∧ env.reuseObs k2 = 0 ∧
    (∀ i < k1, env.pendingObs i ≠ 0) ∧ (∀ i < k2, env.reuseObs i ≠ 0) := by
  unfold closeModule at h
  rcases h1 : closeDrainLoop env.pendingObs fuel 0 with _ | j1
  · rw [h1] at h
    cases h
  rcases h2 : closeDrainLoop env.reuseObs fuel 0 with _ | j2
  · rw [h1, h2] at h
    cases h
  rw [h1, h2] at h
  cases h
  obtain ⟨ho1, _, hmid1⟩ := closeDrainLoop_spec h1
  obtain ⟨ho2, _, hmid2⟩ := closeDrainLoop_spec h2
  exact ⟨ho1, ho2, fun i hi => hmid1 i (Nat.zero_le i) hi,
    fun i hi => hmid2 i (Nat.zero_le i) hi⟩

/-- Concrete instance for claim C9: with the pending collection draining at
the second poll and the reuse collection already empty, Close releases them
at polls 2 and 0, each observed empty, with every earlier poll nonempty. -/
theorem claim9_close_drains_witness :
    exampleCloseEnv.pendingObs 2 = 0 ∧ exampleCloseEnv.reuseObs 0 = 0 ∧
    (∀ i < 2, exampleCloseEnv.pendingObs i ≠ 0) ∧
    (∀ i < 0, exampleCloseEnv.reuseObs i ≠ 0) :=
  claim9_close_drains exampleCloseEnv 5 2 0 (by decide)

/-- Claim C10: an asynchronous reuse-send that returns a failure status
after its lookup successfully marked the slot in use always resets the
slot's inUse flag to false before returning, so a later reuse-send of the
same token is not rejected because of the failed attempt. -/
theorem claim10_failed_reuseSend_clears_inUse (s s1 : ModuleState) (tok rid : Nat)
    (p : SendParams) (env : SendEnv)
    (hasync : p.isSynchronousRequest = false)
    (hfound : reuseListSearch s tok = (s1, some rid))
    (hfail : ntSuccess (requestSendReuse s tok p env).status = false) :
    (getObject (requestSendReuse s tok p env).state rid).map
      (fun o => o.ctx.requestInUse) = some false :=
  requestSendReuse_failure_clears s tok p env s1 rid hasync hfound hfail

/-- Concrete instance for claim C10: the failed send against token 1 leaves
the slot with inUse = false. -/
theorem claim10_failed_reuseSend_clears_inUse_witness :
    (getObject (requestSendReuse exampleReuseState 1 exampleAsyncSendParams
        failedSendEnv).state 1).map (fun o => o.ctx.requestInUse) = some false :=
  claim10_failed_reuseSend_clears_inUse exampleReuseState
    (setCtx exampleReuseState 1 (fun c => { c with requestInUse := true })) 1 1
    exampleAsyncSendParams failedSendEnv rfl (by decide) (by decide)

end RequestTarget
